import Mathlib

/-!
# Verification of the agentkit-aws-pulumi configuration-to-resource translator

Shallow embedding of `agentcore/stack.go` and `agentcore/builder.go`.

Modelling decisions:
* Go `map[string]string` values are modelled as association lists
  (`TagMap`), with `List.lookup` as the read operation and `mapInsert`
  as `m[k] = v` (replace an existing binding, else append).
* The Pulumi provisioning engine is modelled as an oracle
  (`Engine`): for each logical resource name it either returns a
  resource handle (a string, standing for the resource's
  `ID()`/`Arn` output) or an error message.  Resource-creation calls
  (`ec2.NewVpc`, `iam.NewRole`, ...) are recorded in an issued-request
  trace (`Request`), carrying the argument fields the claims are about
  (tags, the security group's VpcId argument, the log group's
  retention).
* The shared configuration package
  `github.com/agentplexus/agentkit/platforms/agentcore/iac` is an
  external dependency whose source is not in this repository; its
  types are reconstructed from their uses in `stack.go`/`builder.go`
  and the configuration schema of the spec, and `ApplyDefaults` /
  `Validate` / the file loader are modelled from the spec (see the
  doc comments of `applyDefaults`, `validate`, `newStackFromFile`).
* Go struct pointers that `ApplyDefaults` guarantees to be non-nil
  (`config.VPC`, `config.Observability`, `config.IAM`) are modelled
  as `Option` fields together with total accessors (`vpcD`, ...)
  returning the defaulted value; after `applyDefaults` the accessor
  agrees with the Go pointer dereference.
-/

set_option autoImplicit false

namespace AgentKitPulumi

/-- Go `map[string]string`, as an association list; reads are `List.lookup`. -/
abbrev TagMap := List (String × String)

/-- Go map assignment `m[k] = v`: replace the binding of `k` if present,
otherwise append a new binding. -/
def mapInsert (m : TagMap) (k v : String) : TagMap :=
  if (m.lookup k).isSome then
    m.map (fun p => if p.1 = k then (k, v) else p)
  else
    m ++ [(k, v)]

/-- `iac.AgentConfig`: one deployable agent (fields from the spec schema and
their uses in `builder.go`/`stack.go`). -/
structure AgentConfig where
  name : String
  containerImage : String
  description : String := ""
  memoryMB : Int := 0
  timeoutSeconds : Int := 0
  environment : TagMap := []
  secretsARNs : List String := []
  isDefault : Bool := false
  deriving Repr, DecidableEq

/-- `iac.VPCConfig`: network topology descriptor (fields from
`builder.go`/`stack.go` and the spec schema). -/
structure VPCConfig where
  createVPC : Bool := false
  vpcCidr : String := ""
  maxAZs : Int := 0
  enableVPCEndpoints : Bool := false
  vpcId : String := ""
  subnetIds : List String := []
  deriving Repr, DecidableEq

/-- `iac.SecretsConfig` (fields from `builder.go` and the spec schema). -/
structure SecretsConfig where
  createSecrets : Bool := false
  secretValues : TagMap := []
  deriving Repr, DecidableEq

/-- `iac.ObservabilityConfig` (fields from `builder.go`/`stack.go`). -/
structure ObservabilityConfig where
  provider : String := ""
  project : String := ""
  apiKeySecretARN : String := ""
  enableCloudWatchLogs : Bool := false
  logRetentionDays : Int := 0
  deriving Repr, DecidableEq

/-- `iac.IAMConfig` (fields from `builder.go`/`stack.go`). -/
structure IAMConfig where
  roleARN : String := ""
  enableBedrockAccess : Bool := false
  bedrockModelIDs : List String := []
  deriving Repr, DecidableEq

/-- `iac.StackConfig`: the root configuration entity.  The four optional
sub-configurations are Go pointers (`*VPCConfig`, ...), hence `Option`. -/
structure StackConfig where
  stackName : String
  description : String := ""
  agents : List AgentConfig := []
  vpc : Option VPCConfig := none
  secrets : Option SecretsConfig := none
  observability : Option ObservabilityConfig := none
  iam : Option IAMConfig := none
  tags : TagMap := []
  removalPolicy : String := ""
  deriving Repr, DecidableEq

/-- Modelled from the spec: `iac.ValidMemoryValues`, the constrained
enumerated set of valid agent memory sizes (megabytes); the spec fixes only
that it is a finite enumeration with a smallest element used as the default. -/
def ValidMemoryValues : List Int := [512, 1024, 2048, 4096, 8192]

/-- Modelled from the spec: `iac.DefaultVPCConfig` — "create new" with a
standard private CIDR and two availability zones. -/
def DefaultVPCConfig : VPCConfig :=
  { createVPC := true, vpcCidr := "10.0.0.0/16", maxAZs := 2,
    enableVPCEndpoints := true }

/-- Modelled from the spec: `iac.DefaultObservabilityConfig` — CloudWatch
only, 30-day retention. -/
def DefaultObservabilityConfig : ObservabilityConfig :=
  { provider := "cloudwatch", enableCloudWatchLogs := true,
    logRetentionDays := 30 }

/-- Modelled from the spec: `iac.DefaultIAMConfig` — Bedrock access enabled,
no model restriction, no pre-existing role. -/
def DefaultIAMConfig : IAMConfig :=
  { enableBedrockAccess := true }

/-- Modelled from the spec: `iac.DefaultAgentConfig` — an agent with the
given name and container image, smallest valid memory size and the baseline
30-second timeout (used by `NewAgentBuilder` and `WithSimpleAgent`). -/
def DefaultAgentConfig (name containerImage : String) : AgentConfig :=
  { name := name, containerImage := containerImage,
    memoryMB := 512, timeoutSeconds := 30 }

/-- Modelled from the spec: defaulting of a single agent —
`memoryMB` unset (zero value) becomes the smallest valid size, and
`timeoutSeconds` unset becomes the 30-second baseline. -/
def applyAgentDefaults (a : AgentConfig) : AgentConfig :=
  { a with
    memoryMB := if a.memoryMB = 0 then 512 else a.memoryMB,
    timeoutSeconds := if a.timeoutSeconds = 0 then 30 else a.timeoutSeconds }

/-- Modelled from the spec: `iac.StackConfig.ApplyDefaults` (§4.1) — fill
each absent optional sub-configuration with its documented default and
default each agent's unset memory/timeout; idempotent. -/
def applyDefaults (c : StackConfig) : StackConfig :=
  { c with
    agents := c.agents.map applyAgentDefaults,
    vpc := some (c.vpc.getD DefaultVPCConfig),
    observability := some (c.observability.getD DefaultObservabilityConfig),
    iam := some (c.iam.getD DefaultIAMConfig) }

/-- The VPC configuration a defaulted config surely has (Go dereferences
the `config.VPC` pointer, which `ApplyDefaults` has made non-nil). -/
def StackConfig.vpcD (c : StackConfig) : VPCConfig :=
  c.vpc.getD DefaultVPCConfig

/-- The observability configuration of a defaulted config (Go dereferences
the `config.Observability` pointer). -/
def StackConfig.obsD (c : StackConfig) : ObservabilityConfig :=
  c.observability.getD DefaultObservabilityConfig

/-- The IAM configuration of a defaulted config (Go dereferences the
`config.IAM` pointer). -/
def StackConfig.iamD (c : StackConfig) : IAMConfig :=
  c.iam.getD DefaultIAMConfig

/-- Split a character list at every occurrence of `sep`. -/
def splitOnChar (sep : Char) : List Char → List (List Char)
  | [] => [[]]
  | c :: cs =>
    match splitOnChar sep cs with
    | [] => if c = sep then [[], [c]] else [[c]]
    | g :: gs => if c = sep then [] :: g :: gs else (c :: g) :: gs

/-- Accumulate the value of a decimal numeral. -/
def digitsToNatAux : List Char → Nat → Option Nat
  | [], acc => some acc
  | c :: cs, acc =>
    if c.isDigit then digitsToNatAux cs (acc * 10 + (c.toNat - '0'.toNat))
    else none

/-- Parse a non-empty decimal numeral. -/
def parseNat? : List Char → Option Nat
  | [] => none
  | cs => digitsToNatAux cs 0

/-- Is `cs` a decimal numeral denoting a natural number `≤ bound`?  Helper
for the IPv4 CIDR well-formedness check. -/
def isNatLE (cs : List Char) (bound : Nat) : Bool :=
  match parseNat? cs with
  | some n => decide (n ≤ bound)
  | none => false

/-- Modelled from the spec: "CIDR must parse as valid IPv4 CIDR" — four
dot-separated octets in `0..255`, a slash, and a prefix length in `0..32`. -/
def isValidIPv4CIDR (s : String) : Bool :=
  match splitOnChar '/' s.toList with
  | [addr, pre] =>
    (match splitOnChar '.' addr with
     | [a, b, c, d] =>
       isNatLE a 255 && isNatLE b 255 && isNatLE c 255 && isNatLE d 255
     | _ => false) && isNatLE pre 32
  | _ => false

/-- Modelled from the spec: the secrets rule of `iac.StackConfig.Validate`
(§4.2) — if creation is requested the value mapping must be non-empty. -/
def validateSecrets (c : StackConfig) : Except String Unit :=
  match c.secrets with
  | some sec =>
    if sec.createSecrets ∧ sec.secretValues = [] then
      .error "secretValues must be non-empty when createSecrets is set"
    else .ok ()
  | none => .ok ()

/-- Modelled from the spec: the observability rule of
`iac.StackConfig.Validate` (§4.2) — opik/langfuse require an API-key secret
reference; then the secrets rule. -/
def validateObservability (c : StackConfig) : Except String Unit :=
  match c.observability with
  | some o =>
    if (o.provider = "opik" ∨ o.provider = "langfuse") ∧ o.apiKeySecretARN = "" then
      .error "apiKeySecretARN is required for opik/langfuse"
    else validateSecrets c
  | none => validateSecrets c

/-- Modelled from the spec: the VPC rule of `iac.StackConfig.Validate`
(§4.2) — "create new" requires a valid IPv4 CIDR and at least one AZ,
"use existing" requires a VPC id and subnet ids; then the later rules. -/
def validateVPC (c : StackConfig) : Except String Unit :=
  match c.vpc with
  | some v =>
    if v.createVPC then
      if ¬ isValidIPv4CIDR v.vpcCidr then
        .error "vpcCidr must be a valid IPv4 CIDR"
      else if v.maxAZs < 1 then
        .error "maxAZs must be at least 1"
      else validateObservability c
    else
      if v.vpcId = "" then
        .error "vpcId is required when using an existing VPC"
      else if v.subnetIds = [] then
        .error "subnetIds are required when using an existing VPC"
      else validateObservability c
  | none => validateObservability c

/-- Modelled from the spec: `iac.StackConfig.Validate` (§4.2), applied to a
defaulted configuration; returns the first violation encountered, in the
order the spec lists the rules. -/
def validate (c : StackConfig) : Except String Unit :=
  if c.stackName = "" then .error "stack name is required"
  else if c.agents = [] then .error "at least one agent is required"
  else if c.agents.any (fun a => a.name = "") then
    .error "agent name is required"
  else if ¬ (c.agents.map AgentConfig.name).Nodup then
    .error "agent names must be unique"
  else if (c.agents.filter AgentConfig.isDefault).length > 1 then
    .error "at most one agent may be marked default"
  else if c.agents.any (fun a => decide (a.memoryMB ∉ ValidMemoryValues)) then
    .error "agent memoryMB must be one of the valid sizes"
  else if c.agents.any (fun a => a.timeoutSeconds ≤ 0) then
    .error "agent timeoutSeconds must be positive"
  else validateVPC c

/-! ## The provisioning engine and the issued-request trace -/

/-- The resource kinds requested by `stack.go`, one per Pulumi `New*` call
shape. -/
inductive ResourceKind where
  | vpc | internetGateway | subnet | eip | natGateway | routeTable
  | routeTableAssociation | securityGroup | securityGroupRule
  | iamRole | iamPolicy | rolePolicyAttachment | logGroup
  deriving Repr, DecidableEq

/-- The `VpcId` argument of the security group: the freshly created VPC's
`ID()` output, a configured existing VPC id, or left unset. -/
inductive VpcIdArg where
  | createdVPC
  | existing (id : String)
  | unset
  deriving Repr, DecidableEq

/-- One declarative resource-creation request issued to the provisioning
engine, recording the argument fields the verification is about. -/
structure Request where
  name : String
  kind : ResourceKind
  tags : Option TagMap := none
  nameArg : Option String := none
  cidrBlock : Option String := none
  vpcIdArg : Option VpcIdArg := none
  retentionInDays : Option Int := none
  policyDoc : Option String := none
  deriving Repr, DecidableEq

/-- The external provisioning engine, as an oracle: for each logical
resource name it returns a resource handle (standing for the resource's
`ID()`/`Arn`/`Name` outputs) or fails with an error message. -/
structure Engine where
  create : String → Except String String

/-- The resource-kind groups of the spec's translation state machine:
network → security boundary → access role → log retention. -/
inductive Phase where
  | network | securityBoundary | accessRole | logRetention
  deriving Repr, DecidableEq

/-- Position of a phase in the fixed dependency order. -/
def Phase.idx : Phase → Nat
  | .network => 0
  | .securityBoundary => 1
  | .accessRole => 2
  | .logRetention => 3

/-- The phase a resource kind belongs to. -/
def ResourceKind.phase : ResourceKind → Phase
  | .vpc | .internetGateway | .subnet | .eip | .natGateway
  | .routeTable | .routeTableAssociation => .network
  | .securityGroup | .securityGroupRule => .securityBoundary
  | .iamRole | .iamPolicy | .rolePolicyAttachment => .accessRole
  | .logGroup => .logRetention

/-! ## `stack.go` -/

/-- `mergeTags` (stack.go): copy the base tags into a fresh map and set the
`Name` tag. -/
def mergeTags (base : TagMap) (name : String) : TagMap :=
  mapInsert base "Name" name

/-- `AgentCoreStack` (stack.go): the handle to the created resources.
Resource pointers become `Option` handles; the log group additionally
carries its `Name` argument (exported as `logGroupName`). -/
structure AgentCoreStack where
  config : StackConfig
  vpc : Option String := none
  publicSubnet : Option String := none
  privateSubnet : Option String := none
  internetGateway : Option String := none
  natGateway : Option String := none
  securityGroup : Option String := none
  executionRole : Option String := none
  logGroup : Option (String × String) := none
  outputs : List (String × String) := []
  deriving Repr, DecidableEq

namespace Requests

/-- The `ec2.NewVpc` request of `createVPC`. -/
def vpc (c : StackConfig) (tags : TagMap) : Request :=
  { name := "vpc", kind := .vpc, cidrBlock := some c.vpcD.vpcCidr,
    tags := some (mergeTags tags (c.stackName ++ "-vpc")) }

/-- The `ec2.NewInternetGateway` request of `createVPC`. -/
def igw (c : StackConfig) (tags : TagMap) : Request :=
  { name := "igw", kind := .internetGateway,
    tags := some (mergeTags tags (c.stackName ++ "-igw")) }

/-- The public-subnet `ec2.NewSubnet` request of `createVPC`. -/
def publicSubnet (c : StackConfig) (tags : TagMap) : Request :=
  { name := "public-subnet", kind := .subnet, cidrBlock := some "10.0.1.0/24",
    tags := some (mergeTags tags (c.stackName ++ "-public")) }

/-- The private-subnet `ec2.NewSubnet` request of `createVPC`. -/
def privateSubnet (c : StackConfig) (tags : TagMap) : Request :=
  { name := "private-subnet", kind := .subnet, cidrBlock := some "10.0.10.0/24",
    tags := some (mergeTags tags (c.stackName ++ "-private")) }

/-- The `ec2.NewEip` request of `createVPC`. -/
def natEip (c : StackConfig) (tags : TagMap) : Request :=
  { name := "nat-eip", kind := .eip,
    tags := some (mergeTags tags (c.stackName ++ "-nat-eip")) }

/-- The `ec2.NewNatGateway` request of `createVPC`. -/
def nat (c : StackConfig) (tags : TagMap) : Request :=
  { name := "nat", kind := .natGateway,
    tags := some (mergeTags tags (c.stackName ++ "-nat")) }

/-- The public `ec2.NewRouteTable` request of `createVPC`. -/
def publicRt (c : StackConfig) (tags : TagMap) : Request :=
  { name := "public-rt", kind := .routeTable,
    tags := some (mergeTags tags (c.stackName ++ "-public-rt")) }

/-- The public `ec2.NewRouteTableAssociation` request of `createVPC`
(carries no tags). -/
def publicRta : Request :=
  { name := "public-rta", kind := .routeTableAssociation }

/-- The private `ec2.NewRouteTable` request of `createVPC`. -/
def privateRt (c : StackConfig) (tags : TagMap) : Request :=
  { name := "private-rt", kind := .routeTable,
    tags := some (mergeTags tags (c.stackName ++ "-private-rt")) }

/-- The private `ec2.NewRouteTableAssociation` request of `createVPC`
(carries no tags). -/
def privateRta : Request :=
  { name := "private-rta", kind := .routeTableAssociation }

/-- The `ec2.NewSecurityGroup` request of `createSecurityGroup`. -/
def sg (c : StackConfig) (tags : TagMap) (vpcIdArg : VpcIdArg) : Request :=
  { name := "sg", kind := .securityGroup, nameArg := some (c.stackName ++ "-sg"),
    vpcIdArg := some vpcIdArg,
    tags := some (mergeTags tags (c.stackName ++ "-sg")) }

/-- The self-ingress `ec2.NewSecurityGroupRule` request of
`createSecurityGroup` (carries no tags). -/
def sgSelfIngress : Request :=
  { name := "sg-self-ingress", kind := .securityGroupRule }

/-- The `iam.NewRole` request of `createIAMRole`. -/
def executionRole (c : StackConfig) (tags : TagMap) : Request :=
  { name := "execution-role", kind := .iamRole,
    nameArg := some (c.stackName ++ "-execution-role"),
    tags := some (mergeTags tags (c.stackName ++ "-execution-role")) }

/-- The `iam.NewPolicy` request of `createIAMRole` (carries no tags),
holding the generated policy document. -/
def executionPolicy (c : StackConfig) (policyDoc : String) : Request :=
  { name := "execution-policy", kind := .iamPolicy,
    nameArg := some (c.stackName ++ "-execution-policy"),
    policyDoc := some policyDoc }

/-- The `iam.NewRolePolicyAttachment` request of `createIAMRole`
(carries no tags). -/
def executionPolicyAttachment : Request :=
  { name := "execution-policy-attachment", kind := .rolePolicyAttachment }

/-- The `cloudwatch.NewLogGroup` request of `createLogGroup`. -/
def logGroup (c : StackConfig) (tags : TagMap) (retentionDays : Int) : Request :=
  { name := "log-group", kind := .logGroup,
    nameArg := some ("/aws/agentcore/" ++ c.stackName),
    retentionInDays := some retentionDays,
    tags := some (mergeTags tags (c.stackName ++ "-logs")) }

end Requests

/-- `createVPC` (stack.go): create VPC, internet gateway, subnets, NAT
gateway, route tables and associations, in sequence; the first failing
request aborts the rest.  The returned trace lists the requests issued
(the failing one included). -/
def AgentCoreStack.createVPC (s : AgentCoreStack) (engine : Engine)
    (tags : TagMap) : Except String AgentCoreStack × List Request :=
  let c := s.config
  match engine.create "vpc" with
  | .error e => (.error e, [Requests.vpc c tags])
  | .ok vpcId =>
  match engine.create "igw" with
  | .error e => (.error e, [Requests.vpc c tags, Requests.igw c tags])
  | .ok igwId =>
  match engine.create "public-subnet" with
  | .error e => (.error e, [Requests.vpc c tags, Requests.igw c tags,
      Requests.publicSubnet c tags])
  | .ok pubId =>
  match engine.create "private-subnet" with
  | .error e => (.error e, [Requests.vpc c tags, Requests.igw c tags,
      Requests.publicSubnet c tags, Requests.privateSubnet c tags])
  | .ok privId =>
  match engine.create "nat-eip" with
  | .error e => (.error e, [Requests.vpc c tags, Requests.igw c tags,
      Requests.publicSubnet c tags, Requests.privateSubnet c tags,
      Requests.natEip c tags])
  | .ok _ =>
  match engine.create "nat" with
  | .error e => (.error e, [Requests.vpc c tags, Requests.igw c tags,
      Requests.publicSubnet c tags, Requests.privateSubnet c tags,
      Requests.natEip c tags, Requests.nat c tags])
  | .ok natId =>
  match engine.create "public-rt" with
  | .error e => (.error e, [Requests.vpc c tags, Requests.igw c tags,
      Requests.publicSubnet c tags, Requests.privateSubnet c tags,
      Requests.natEip c tags, Requests.nat c tags, Requests.publicRt c tags])
  | .ok _ =>
  match engine.create "public-rta" with
  | .error e => (.error e, [Requests.vpc c tags, Requests.igw c tags,
      Requests.publicSubnet c tags, Requests.privateSubnet c tags,
      Requests.natEip c tags, Requests.nat c tags, Requests.publicRt c tags,
      Requests.publicRta])
  | .ok _ =>
  match engine.create "private-rt" with
  | .error e => (.error e, [Requests.vpc c tags, Requests.igw c tags,
      Requests.publicSubnet c tags, Requests.privateSubnet c tags,
      Requests.natEip c tags, Requests.nat c tags, Requests.publicRt c tags,
      Requests.publicRta, Requests.privateRt c tags])
  | .ok _ =>
  match engine.create "private-rta" with
  | .error e => (.error e, [Requests.vpc c tags, Requests.igw c tags,
      Requests.publicSubnet c tags, Requests.privateSubnet c tags,
      Requests.natEip c tags, Requests.nat c tags, Requests.publicRt c tags,
      Requests.publicRta, Requests.privateRt c tags, Requests.privateRta])
  | .ok _ =>
    (.ok { s with
            vpc := some vpcId, internetGateway := some igwId,
            publicSubnet := some pubId, privateSubnet := some privId,
            natGateway := some natId },
     [Requests.vpc c tags, Requests.igw c tags,
      Requests.publicSubnet c tags, Requests.privateSubnet c tags,
      Requests.natEip c tags, Requests.nat c tags, Requests.publicRt c tags,
      Requests.publicRta, Requests.privateRt c tags, Requests.privateRta])

/-- The `VpcId` argument selection of `createSecurityGroup` (stack.go,
lines 228-233): the created VPC's `ID()` when the stack holds one, else
the configured existing VPC id when non-empty, else unset. -/
def AgentCoreStack.sgArgOf (s : AgentCoreStack) : VpcIdArg :=
  match s.vpc with
  | some _ => .createdVPC
  | none =>
    if s.config.vpcD.vpcId ≠ "" then .existing s.config.vpcD.vpcId else .unset

/-- `createSecurityGroup` (stack.go): choose the `VpcId` argument (created
VPC if present, else the configured existing VPC id if non-empty, else
unset), create the security group and its self-ingress rule. -/
def AgentCoreStack.createSecurityGroup (s : AgentCoreStack) (engine : Engine)
    (tags : TagMap) : Except String AgentCoreStack × List Request :=
  let c := s.config
  let vpcIdArg := s.sgArgOf
  match engine.create "sg" with
  | .error e => (.error e, [Requests.sg c tags vpcIdArg])
  | .ok sgId =>
  match engine.create "sg-self-ingress" with
  | .error e => (.error e, [Requests.sg c tags vpcIdArg, Requests.sgSelfIngress])
  | .ok _ =>
    (.ok { s with securityGroup := some sgId },
     [Requests.sg c tags vpcIdArg, Requests.sgSelfIngress])

/-- The CloudWatch-logs statement of `buildIAMPolicyStatements`
(whitespace of the Go raw string elided). -/
def cloudWatchLogsStatement : String :=
  "\x7b \"Effect\": \"Allow\", \"Action\": [\"logs:CreateLogGroup\", \"logs:CreateLogStream\", \"logs:PutLogEvents\"], \"Resource\": \"arn:aws:logs:*:*:*\" \x7d"

/-- The ECR statement of `buildIAMPolicyStatements` (whitespace elided). -/
def ecrStatement : String :=
  "\x7b \"Effect\": \"Allow\", \"Action\": [\"ecr:GetAuthorizationToken\", \"ecr:BatchCheckLayerAvailability\", \"ecr:GetDownloadUrlForLayer\", \"ecr:BatchGetImage\"], \"Resource\": \"*\" \x7d"

/-- The Secrets Manager statement of `buildIAMPolicyStatements`
(whitespace elided). -/
def secretsManagerStatement : String :=
  "\x7b \"Effect\": \"Allow\", \"Action\": [\"secretsmanager:GetSecretValue\"], \"Resource\": \"*\" \x7d"

/-- The Bedrock invoke statement of `buildIAMPolicyStatements`, with the
given JSON `Resource` value (whitespace elided). -/
def bedrockStatement (resource : String) : String :=
  "\x7b \"Effect\": \"Allow\", \"Action\": [\"bedrock:InvokeModel\", \"bedrock:InvokeModelWithResponseStream\"], \"Resource\": " ++ resource ++ " \x7d"

/-- The per-model foundation-model ARN of the Bedrock statement
(the `fmt.Sprintf` of stack.go line 358). -/
def bedrockArn (id : String) : String :=
  "\"arn:aws:bedrock:*:*:foundation-model/" ++ id ++ "\""

/-- The `Resource` value of the Bedrock statement (stack.go, lines
351-361): the wildcard foundation-model ARN, overridden with a JSON array
of per-model ARNs (the loop prepending `", "` from the second entry on)
when the allow-list is non-empty. -/
def bedrockResource (iam : IAMConfig) : String :=
  let wildcard := "\"arn:aws:bedrock:*:*:foundation-model/*\""
  if iam.bedrockModelIDs.length > 0 then
    let resources := iam.bedrockModelIDs.enum.foldl (fun acc p =>
      acc ++ (if p.1 > 0 then ", " else "") ++ bedrockArn p.2) ""
    "[" ++ resources ++ "]"
  else wildcard

/-- The statement list built by `buildIAMPolicyStatements`: CloudWatch
Logs and ECR always, the Bedrock statement when Bedrock access is enabled,
the Secrets Manager statement when some agent lists secret ARNs. -/
def iamPolicyStatementList (c : StackConfig) : List String :=
  let statements := [cloudWatchLogsStatement, ecrStatement]
  let statements :=
    if c.iamD.enableBedrockAccess then
      statements ++ [bedrockStatement (bedrockResource c.iamD)]
    else statements
  let hasSecrets := c.agents.any (fun a => a.secretsARNs.length > 0)
  if hasSecrets then statements ++ [secretsManagerStatement] else statements

/-- `buildIAMPolicyStatements` (stack.go): the policy JSON document —
the statements joined with `","` (the loop prepending it from the second
entry on) inside the fixed version/statement wrapper (whitespace elided). -/
def buildIAMPolicyStatements (c : StackConfig) : String :=
  let statementsJSON := (iamPolicyStatementList c).enum.foldl (fun acc p =>
    acc ++ (if p.1 > 0 then "," else "") ++ p.2) ""
  "\x7b \"Version\": \"2012-10-17\", \"Statement\": [" ++ statementsJSON ++ "] \x7d"

/-- `createIAMRole` (stack.go): create the execution role, the execution
policy carrying `buildIAMPolicyStatements`, and the attachment. -/
def AgentCoreStack.createIAMRole (s : AgentCoreStack) (engine : Engine)
    (tags : TagMap) : Except String AgentCoreStack × List Request :=
  let c := s.config
  match engine.create "execution-role" with
  | .error e => (.error e, [Requests.executionRole c tags])
  | .ok roleId =>
  match engine.create "execution-policy" with
  | .error e => (.error e, [Requests.executionRole c tags,
      Requests.executionPolicy c (buildIAMPolicyStatements c)])
  | .ok _ =>
  match engine.create "execution-policy-attachment" with
  | .error e => (.error e, [Requests.executionRole c tags,
      Requests.executionPolicy c (buildIAMPolicyStatements c),
      Requests.executionPolicyAttachment])
  | .ok _ =>
    (.ok { s with executionRole := some roleId },
     [Requests.executionRole c tags,
      Requests.executionPolicy c (buildIAMPolicyStatements c),
      Requests.executionPolicyAttachment])

/-- `createLogGroup` (stack.go): retention defaults to 30 when the
configured `LogRetentionDays` is zero; create the log group named
`/aws/agentcore/<stack>`. -/
def AgentCoreStack.createLogGroup (s : AgentCoreStack) (engine : Engine)
    (tags : TagMap) : Except String AgentCoreStack × List Request :=
  let c := s.config
  let retentionDays :=
    if c.obsD.logRetentionDays = 0 then 30 else c.obsD.logRetentionDays
  match engine.create "log-group" with
  | .error e => (.error e, [Requests.logGroup c tags retentionDays])
  | .ok lgId =>
    (.ok { s with logGroup := some (lgId, "/aws/agentcore/" ++ c.stackName) },
     [Requests.logGroup c tags retentionDays])

/-- `exportOutputs` (stack.go): export each resource identifier that was
created, then the agent count; the stack's `Outputs` map receives the same
entries except `agentCount`. -/
def AgentCoreStack.exportOutputs (s : AgentCoreStack) :
    AgentCoreStack × List (String × String) :=
  let exps :=
    (match s.vpc with | some id => [("vpcId", id)] | none => [])
    ++ (match s.privateSubnet with | some id => [("privateSubnetId", id)] | none => [])
    ++ (match s.securityGroup with | some id => [("securityGroupId", id)] | none => [])
    ++ (match s.executionRole with | some arn => [("executionRoleArn", arn)] | none => [])
    ++ (match s.logGroup with | some lg => [("logGroupName", lg.2)] | none => [])
  ({ s with outputs := exps },
   exps ++ [("agentCount", toString s.config.agents.length)])

/-- `NewAgentCoreStack` (stack.go): apply defaults, validate (returning a
wrapped error with no request issued on failure), then create VPC
resources (when `CreateVPC`), security group, IAM role and log group (when
CloudWatch logs are enabled) in order, wrapping the first failure with the
failing resource kind; on success export the outputs.  Returns the result,
the issued-request trace, and the exported outputs. -/
def NewAgentCoreStack (engine : Engine) (config₀ : StackConfig) :
    Except String AgentCoreStack × List Request × List (String × String) :=
  let config := applyDefaults config₀
  match validate config with
  | .error err => (.error ("invalid stack configuration: " ++ err), [], [])
  | .ok _ =>
    let stack : AgentCoreStack := { config := config }
    let tags := mapInsert config.tags "ManagedBy" "agentkit-pulumi"
    let (r₁, t₁) :=
      if config.vpcD.createVPC then stack.createVPC engine tags
      else (.ok stack, [])
    match r₁ with
    | .error e => (.error ("failed to create VPC: " ++ e), t₁, [])
    | .ok stack₁ =>
      let (r₂, t₂) := stack₁.createSecurityGroup engine tags
      match r₂ with
      | .error e => (.error ("failed to create security group: " ++ e), t₁ ++ t₂, [])
      | .ok stack₂ =>
        let (r₃, t₃) := stack₂.createIAMRole engine tags
        match r₃ with
        | .error e => (.error ("failed to create IAM role: " ++ e), t₁ ++ t₂ ++ t₃, [])
        | .ok stack₃ =>
          let (r₄, t₄) :=
            if config.obsD.enableCloudWatchLogs then stack₃.createLogGroup engine tags
            else (.ok stack₃, [])
          match r₄ with
          | .error e => (.error ("failed to create log group: " ++ e), t₁ ++ t₂ ++ t₃ ++ t₄, [])
          | .ok stack₄ =>
            let (stack₅, exps) := stack₄.exportOutputs
            (.ok stack₅, t₁ ++ t₂ ++ t₃ ++ t₄, exps)

/-- `NewStackFromFile` (stack.go), parameterized by the external
`iac.LoadStackConfigFromFile` (modelled abstractly as any fallible
path-to-config function, since its source lives in the shared `agentkit`
module): load, then translate. -/
def NewStackFromFile (loadStackConfigFromFile : String → Except String StackConfig)
    (engine : Engine) (configPath : String) :
    Except String AgentCoreStack × List Request × List (String × String) :=
  match loadStackConfigFromFile configPath with
  | .error e => (.error e, [], [])
  | .ok config => NewAgentCoreStack engine config

/-- Outcome of a Go function that may `panic`: either a panic with its
message, or a normal return. -/
inductive PanicOr (α : Type) where
  | panicked (msg : String)
  | returned (a : α)
  deriving Repr, DecidableEq

/-- `MustNewStackFromFile` (stack.go): like `NewStackFromFile` but
panicking on error with the wrapping message. -/
def MustNewStackFromFile (loadStackConfigFromFile : String → Except String StackConfig)
    (engine : Engine) (configPath : String) : PanicOr AgentCoreStack :=
  match (NewStackFromFile loadStackConfigFromFile engine configPath).1 with
  | .error e => .panicked ("failed to create stack from " ++ configPath ++ ": " ++ e)
  | .ok stack => .returned stack

/-! ## `builder.go` -/

/-- `StackBuilder` (builder.go): fluent construction of a `StackConfig`. -/
structure StackBuilder where
  config : StackConfig
  deriving Repr, DecidableEq

/-- `NewStackBuilder` (builder.go). -/
def NewStackBuilder (stackName : String) : StackBuilder :=
  { config := { stackName := stackName, agents := [], tags := [] } }

namespace StackBuilder

/-- `WithDescription` (builder.go). -/
def WithDescription (b : StackBuilder) (description : String) : StackBuilder :=
  { b with config := { b.config with description := description } }

/-- `WithAgent` (builder.go). -/
def WithAgent (b : StackBuilder) (config : AgentConfig) : StackBuilder :=
  { b with config := { b.config with agents := b.config.agents ++ [config] } }

/-- `WithAgents` (builder.go). -/
def WithAgents (b : StackBuilder) (configs : List AgentConfig) : StackBuilder :=
  { b with config := { b.config with agents := b.config.agents ++ configs } }

/-- `WithSimpleAgent` (builder.go). -/
def WithSimpleAgent (b : StackBuilder) (name containerImage : String) : StackBuilder :=
  b.WithAgent (DefaultAgentConfig name containerImage)

/-- `WithDefaultAgent` (builder.go). -/
def WithDefaultAgent (b : StackBuilder) (name containerImage : String) : StackBuilder :=
  b.WithAgent { DefaultAgentConfig name containerImage with isDefault := true }

/-- `WithVPC` (builder.go). -/
def WithVPC (b : StackBuilder) (config : VPCConfig) : StackBuilder :=
  { b with config := { b.config with vpc := some config } }

/-- `WithExistingVPC` (builder.go): existing VPC id and subnets;
`createVPC` is left at its false zero value. -/
def WithExistingVPC (b : StackBuilder) (vpcID : String) (subnetIDs : List String) :
    StackBuilder :=
  { b with config := { b.config with
      vpc := some { vpcId := vpcID, subnetIds := subnetIDs } } }

/-- `WithNewVPC` (builder.go): a new VPC with the given CIDR and AZ count. -/
def WithNewVPC (b : StackBuilder) (cidr : String) (maxAZs : Int) : StackBuilder :=
  { b with config := { b.config with
      vpc := some { createVPC := true, vpcCidr := cidr, maxAZs := maxAZs,
                    enableVPCEndpoints := true } } }

/-- `WithSecrets` (builder.go). -/
def WithSecrets (b : StackBuilder) (config : SecretsConfig) : StackBuilder :=
  { b with config := { b.config with secrets := some config } }

/-- `WithSecretValues` (builder.go). -/
def WithSecretValues (b : StackBuilder) (values : TagMap) : StackBuilder :=
  { b with config := { b.config with
      secrets := some { createSecrets := true, secretValues := values } } }

/-- `WithObservability` (builder.go). -/
def WithObservability (b : StackBuilder) (config : ObservabilityConfig) : StackBuilder :=
  { b with config := { b.config with observability := some config } }

/-- `WithOpik` (builder.go). -/
def WithOpik (b : StackBuilder) (project apiKeySecretARN : String) : StackBuilder :=
  { b with config := { b.config with
      observability := some
        { provider := "opik", project := project,
          apiKeySecretARN := apiKeySecretARN, enableCloudWatchLogs := true,
          logRetentionDays := 30 } } }

/-- `WithLangfuse` (builder.go). -/
def WithLangfuse (b : StackBuilder) (project apiKeySecretARN : String) : StackBuilder :=
  { b with config := { b.config with
      observability := some
        { provider := "langfuse", project := project,
          apiKeySecretARN := apiKeySecretARN, enableCloudWatchLogs := true,
          logRetentionDays := 30 } } }

/-- `WithCloudWatchOnly` (builder.go). -/
def WithCloudWatchOnly (b : StackBuilder) (retentionDays : Int) : StackBuilder :=
  { b with config := { b.config with
      observability := some
        { provider := "cloudwatch",
          enableCloudWatchLogs := true, logRetentionDays := retentionDays } } }

/-- `WithIAM` (builder.go). -/
def WithIAM (b : StackBuilder) (config : IAMConfig) : StackBuilder :=
  { b with config := { b.config with iam := some config } }

/-- `WithExistingRole` (builder.go). -/
def WithExistingRole (b : StackBuilder) (roleARN : String) : StackBuilder :=
  { b with config := { b.config with iam := some { roleARN := roleARN } } }

/-- `WithBedrockModels` (builder.go): install the default IAM config if
none is set, then restrict the model allow-list. -/
def WithBedrockModels (b : StackBuilder) (modelIDs : List String) : StackBuilder :=
  let iam := (b.config.iam.getD DefaultIAMConfig)
  { b with config := { b.config with
      iam := some { iam with bedrockModelIDs := modelIDs } } }

/-- `WithTags` (builder.go): set each given tag in the held tag map. -/
def WithTags (b : StackBuilder) (tags : TagMap) : StackBuilder :=
  { b with config := { b.config with
      tags := tags.foldl (fun m p => mapInsert m p.1 p.2) b.config.tags } }

/-- `WithTag` (builder.go). -/
def WithTag (b : StackBuilder) (key value : String) : StackBuilder :=
  { b with config := { b.config with tags := mapInsert b.config.tags key value } }

/-- `WithRemovalPolicy` (builder.go). -/
def WithRemovalPolicy (b : StackBuilder) (policy : String) : StackBuilder :=
  { b with config := { b.config with removalPolicy := policy } }

/-- `RetainOnDelete` (builder.go). -/
def RetainOnDelete (b : StackBuilder) : StackBuilder :=
  b.WithRemovalPolicy "retain"

/-- `DestroyOnDelete` (builder.go). -/
def DestroyOnDelete (b : StackBuilder) : StackBuilder :=
  b.WithRemovalPolicy "destroy"

/-- `Config` (builder.go): return the accumulated configuration as is. -/
def Config (b : StackBuilder) : StackConfig :=
  b.config

/-- `Validate` (builder.go): apply defaults and validate the held config. -/
def Validate (b : StackBuilder) : Except String Unit :=
  validate (applyDefaults b.config)

/-- `Build` (builder.go): hand the accumulated config to
`NewAgentCoreStack`. -/
def Build (b : StackBuilder) (engine : Engine) :
    Except String AgentCoreStack × List Request × List (String × String) :=
  NewAgentCoreStack engine b.config

/-- `MustBuild` (builder.go): like `Build` but panicking on error. -/
def MustBuild (b : StackBuilder) (engine : Engine) : PanicOr AgentCoreStack :=
  match (b.Build engine).1 with
  | .error e => .panicked e
  | .ok stack => .returned stack

end StackBuilder

/-- `AgentBuilder` (builder.go): fluent construction of an `AgentConfig`. -/
structure AgentBuilder where
  config : AgentConfig
  deriving Repr, DecidableEq

/-- `NewAgentBuilder` (builder.go). -/
def NewAgentBuilder (name containerImage : String) : AgentBuilder :=
  { config := DefaultAgentConfig name containerImage }

namespace AgentBuilder

/-- `WithDescription` (builder.go). -/
def WithDescription (b : AgentBuilder) (description : String) : AgentBuilder :=
  { b with config := { b.config with description := description } }

/-- `WithMemory` (builder.go). -/
def WithMemory (b : AgentBuilder) (memoryMB : Int) : AgentBuilder :=
  { b with config := { b.config with memoryMB := memoryMB } }

/-- `WithTimeout` (builder.go). -/
def WithTimeout (b : AgentBuilder) (timeoutSeconds : Int) : AgentBuilder :=
  { b with config := { b.config with timeoutSeconds := timeoutSeconds } }

/-- `WithEnvironment` (builder.go): set each given variable in the held
environment map. -/
def WithEnvironment (b : AgentBuilder) (env : TagMap) : AgentBuilder :=
  { b with config := { b.config with
      environment := env.foldl (fun m p => mapInsert m p.1 p.2) b.config.environment } }

/-- `WithEnvVar` (builder.go). -/
def WithEnvVar (b : AgentBuilder) (key value : String) : AgentBuilder :=
  { b with config := { b.config with
      environment := mapInsert b.config.environment key value } }

/-- `WithSecrets` (builder.go). -/
def WithSecrets (b : AgentBuilder) (secretARNs : List String) : AgentBuilder :=
  { b with config := { b.config with
      secretsARNs := b.config.secretsARNs ++ secretARNs } }

/-- `AsDefault` (builder.go). -/
def AsDefault (b : AgentBuilder) : AgentBuilder :=
  { b with config := { b.config with isDefault := true } }

/-- `Build` (builder.go): return the accumulated configuration as is. -/
def Build (b : AgentBuilder) : AgentConfig :=
  b.config

end AgentBuilder

/-! ## Trace combinators for the characterization theorems -/

/-- Run a request list against the engine, stopping at the first failure. -/
def runList (engine : Engine) : List Request → Except String Unit
  | [] => .ok ()
  | r :: rs =>
    match engine.create r.name with
    | .ok _ => runList engine rs
    | .error e => .error e

/-- The prefix of a request list the translator actually issues: every
request up to and including the first failing one. -/
def takeUntilFail (engine : Engine) : List Request → List Request
  | [] => []
  | r :: rs =>
    match engine.create r.name with
    | .ok _ => r :: takeUntilFail engine rs
    | .error _ => [r]

/-- The first failing request of a list, with its engine error. -/
def firstFailure (engine : Engine) : List Request → Option (Request × String)
  | [] => none
  | r :: rs =>
    match engine.create r.name with
    | .ok _ => firstFailure engine rs
    | .error e => some (r, e)

/-- The handle the engine returns for a resource name (unspecified filler
on failure; only used on success paths). -/
def handleOf (engine : Engine) (name : String) : String :=
  match engine.create name with
  | .ok id => id
  | .error _ => ""

/-- The network-phase requests `createVPC` issues, in order. -/
def vpcPlanned (c : StackConfig) (tags : TagMap) : List Request :=
  [Requests.vpc c tags, Requests.igw c tags,
   Requests.publicSubnet c tags, Requests.privateSubnet c tags,
   Requests.natEip c tags, Requests.nat c tags, Requests.publicRt c tags,
   Requests.publicRta, Requests.privateRt c tags, Requests.privateRta]

/-- The `VpcId` argument `createSecurityGroup` chooses, expressed over the
configuration: at that point the stack holds a created VPC exactly when
`createVPC` is set. -/
def sgVpcIdArg (c : StackConfig) : VpcIdArg :=
  if c.vpcD.createVPC then .createdVPC
  else if c.vpcD.vpcId ≠ "" then .existing c.vpcD.vpcId
  else .unset

/-- The security-boundary requests, in order. -/
def sgPlanned (c : StackConfig) (tags : TagMap) : List Request :=
  [Requests.sg c tags (sgVpcIdArg c), Requests.sgSelfIngress]

/-- The access-role requests, in order. -/
def iamPlanned (c : StackConfig) (tags : TagMap) : List Request :=
  [Requests.executionRole c tags,
   Requests.executionPolicy c (buildIAMPolicyStatements c),
   Requests.executionPolicyAttachment]

/-- The retention `createLogGroup` requests. -/
def lgRetention (c : StackConfig) : Int :=
  if c.obsD.logRetentionDays = 0 then 30 else c.obsD.logRetentionDays

/-- The log-retention requests. -/
def lgPlanned (c : StackConfig) (tags : TagMap) : List Request :=
  [Requests.logGroup c tags (lgRetention c)]

/-- The full fixed-order request sequence the translator attempts for a
validated configuration. -/
def plannedRequests (c : StackConfig) (tags : TagMap) : List Request :=
  (if c.vpcD.createVPC then vpcPlanned c tags else [])
    ++ sgPlanned c tags ++ iamPlanned c tags
    ++ (if c.obsD.enableCloudWatchLogs then lgPlanned c tags else [])

/-- The error-wrapping prefix `NewAgentCoreStack` uses for each phase. -/
def phasePrefix : Phase → String
  | .network => "failed to create VPC: "
  | .securityBoundary => "failed to create security group: "
  | .accessRole => "failed to create IAM role: "
  | .logRetention => "failed to create log group: "

/-- The stack state after all creation steps succeed, before
`exportOutputs` runs. -/
def preExportStack (engine : Engine) (c : StackConfig) : AgentCoreStack :=
  let s₀ : AgentCoreStack := { config := c }
  let s₁ :=
    if c.vpcD.createVPC then
      { s₀ with
        vpc := some (handleOf engine "vpc"),
        internetGateway := some (handleOf engine "igw"),
        publicSubnet := some (handleOf engine "public-subnet"),
        privateSubnet := some (handleOf engine "private-subnet"),
        natGateway := some (handleOf engine "nat") }
    else s₀
  let s₂ := { s₁ with
              securityGroup := some (handleOf engine "sg"),
              executionRole := some (handleOf engine "execution-role") }
  let s₃ :=
    if c.obsD.enableCloudWatchLogs then
      { s₂ with logGroup := some (handleOf engine "log-group",
                                  "/aws/agentcore/" ++ c.stackName) }
    else s₂
  s₃

/-- Reference description of `NewAgentCoreStack` on a validated,
defaulted configuration: run the fixed planned sequence until the first
failure; on failure return the phase-wrapped error and the issued prefix,
on success the final stack, the whole sequence, and the exports. -/
def referenceOutcome (engine : Engine) (c : StackConfig) :
    Except String AgentCoreStack × List Request × List (String × String) :=
  let tags := mapInsert c.tags "ManagedBy" "agentkit-pulumi"
  let planned := plannedRequests c tags
  match firstFailure engine planned with
  | some rp =>
    (.error (phasePrefix rp.1.kind.phase ++ rp.2), takeUntilFail engine planned, [])
  | none =>
    ((.ok (preExportStack engine c).exportOutputs.1), planned,
     (preExportStack engine c).exportOutputs.2)

/-! ## Generic lemmas about the trace combinators and tag maps -/

theorem firstFailure_append (engine : Engine) (l₁ l₂ : List Request) :
    firstFailure engine (l₁ ++ l₂) =
      match firstFailure engine l₁ with
      | some rp => some rp
      | none => firstFailure engine l₂ := by
  induction l₁ with
  | nil => simp [firstFailure]
  | cons r rs ih =>
    simp only [List.cons_append, firstFailure]
    cases engine.create r.name <;> simp [ih]

theorem takeUntilFail_eq_self (engine : Engine) (l : List Request)
    (h : firstFailure engine l = none) : takeUntilFail engine l = l := by
  induction l with
  | nil => simp [takeUntilFail]
  | cons r rs ih =>
    simp only [firstFailure] at h
    simp only [takeUntilFail]
    cases he : engine.create r.name with
    | ok v => simp only [he] at h ⊢; simp [ih h]
    | error e => simp [he] at h

theorem takeUntilFail_append (engine : Engine) (l₁ l₂ : List Request) :
    takeUntilFail engine (l₁ ++ l₂) =
      match firstFailure engine l₁ with
      | some _ => takeUntilFail engine l₁
      | none => l₁ ++ takeUntilFail engine l₂ := by
  induction l₁ with
  | nil => simp [takeUntilFail, firstFailure]
  | cons r rs ih =>
    cases he : engine.create r.name with
    | ok v =>
      simp only [List.cons_append, takeUntilFail, firstFailure, he]
      cases hf : firstFailure engine rs <;> simp [ih, hf]
    | error e =>
      simp [takeUntilFail, firstFailure, he]

theorem takeUntilFail_prefixOf (engine : Engine) (l : List Request) :
    takeUntilFail engine l <+: l := by
  induction l with
  | nil => simp [takeUntilFail]
  | cons r rs ih =>
    simp only [takeUntilFail]
    cases engine.create r.name with
    | ok v => exact (List.prefix_cons_inj r).mpr ih
    | error e => exact ⟨rs, rfl⟩

theorem firstFailure_none_iff (engine : Engine) (l : List Request) :
    firstFailure engine l = none ↔
      ∀ r ∈ l, (engine.create r.name).isOk := by
  induction l with
  | nil => simp [firstFailure]
  | cons r rs ih =>
    simp only [firstFailure, List.mem_cons]
    cases he : engine.create r.name with
    | ok v => simp [ih, he, Except.isOk, Except.toBool]
    | error e => simp [he, Except.isOk, Except.toBool]

theorem firstFailure_mem (engine : Engine) (l : List Request)
    (r : Request) (e : String) (h : firstFailure engine l = some (r, e)) :
    r ∈ l ∧ engine.create r.name = .error e := by
  induction l with
  | nil => simp [firstFailure] at h
  | cons r' rs ih =>
    simp only [firstFailure] at h
    cases he : engine.create r'.name with
    | ok v =>
      simp only [he] at h
      rcases ih h with ⟨hm, hee⟩
      exact ⟨List.mem_cons_of_mem _ hm, hee⟩
    | error e' =>
      simp only [he, Option.some.injEq, Prod.mk.injEq] at h
      rcases h with ⟨h₁, h₂⟩
      subst h₁; subst h₂
      exact ⟨List.mem_cons_self _ _, he⟩

theorem takeUntilFail_getLast (engine : Engine) (l : List Request)
    (r : Request) (e : String) (h : firstFailure engine l = some (r, e)) :
    (takeUntilFail engine l).getLast? = some r := by
  induction l with
  | nil => simp [firstFailure] at h
  | cons r' rs ih =>
    simp only [firstFailure] at h
    cases he : engine.create r'.name with
    | ok v =>
      simp only [he] at h
      simp only [takeUntilFail, he]
      cases hrs : takeUntilFail engine rs with
      | nil =>
        have := ih h
        rw [hrs] at this
        simp at this
      | cons a b =>
        have : (a :: b).getLast? = some r := by rw [← hrs]; exact ih h
        simpa [List.getLast?_cons_cons] using this
    | error e' =>
      simp only [he, Option.some.injEq, Prod.mk.injEq] at h
      rcases h with ⟨rfl, rfl⟩
      simp [takeUntilFail, he]

theorem takeUntilFail_dropLast_ok (engine : Engine) (l : List Request)
    (r : Request) (e : String) (h : firstFailure engine l = some (r, e)) :
    ∀ r' ∈ (takeUntilFail engine l).dropLast, (engine.create r'.name).isOk := by
  induction l with
  | nil => simp [firstFailure] at h
  | cons r₀ rs ih =>
    simp only [firstFailure] at h
    cases he : engine.create r₀.name with
    | ok v =>
      simp only [he] at h
      simp only [takeUntilFail, he]
      intro r' hr'
      cases hrs : takeUntilFail engine rs with
      | nil =>
        have := takeUntilFail_getLast engine rs r e h
        rw [hrs] at this; simp at this
      | cons a b =>
        rw [hrs] at hr'
        simp only [List.dropLast_cons₂, List.mem_cons] at hr'
        rcases hr' with hr' | hr'
        · subst hr'; simp [he, Except.isOk, Except.toBool]
        · exact ih h r' (by rw [hrs]; simpa using hr')
    | error e' =>
      intro r' hr'
      simp [takeUntilFail, he] at hr'

attribute [simp] Requests.vpc Requests.igw Requests.publicSubnet
  Requests.privateSubnet Requests.natEip Requests.nat Requests.publicRt
  Requests.publicRta Requests.privateRt Requests.privateRta Requests.sg
  Requests.sgSelfIngress Requests.executionRole Requests.executionPolicy
  Requests.executionPolicyAttachment Requests.logGroup

attribute [simp] vpcPlanned sgPlanned iamPlanned lgPlanned firstFailure
  takeUntilFail

/-! ## Characterizations of the four creation steps -/

theorem createVPC_eq (s : AgentCoreStack) (engine : Engine) (tags : TagMap) :
    s.createVPC engine tags =
      ((match firstFailure engine (vpcPlanned s.config tags) with
        | some rp => .error rp.2
        | none =>
          .ok { s with
                vpc := some (handleOf engine "vpc"),
                internetGateway := some (handleOf engine "igw"),
                publicSubnet := some (handleOf engine "public-subnet"),
                privateSubnet := some (handleOf engine "private-subnet"),
                natGateway := some (handleOf engine "nat") }),
       takeUntilFail engine (vpcPlanned s.config tags)) := by
  unfold AgentCoreStack.createVPC
  cases h₁ : engine.create "vpc" with
  | error e => simp_all [handleOf]
  | ok v₁ =>
  cases h₂ : engine.create "igw" with
  | error e => simp_all [handleOf]
  | ok v₂ =>
  cases h₃ : engine.create "public-subnet" with
  | error e => simp_all [handleOf]
  | ok v₃ =>
  cases h₄ : engine.create "private-subnet" with
  | error e => simp_all [handleOf]
  | ok v₄ =>
  cases h₅ : engine.create "nat-eip" with
  | error e => simp_all [handleOf]
  | ok v₅ =>
  cases h₆ : engine.create "nat" with
  | error e => simp_all [handleOf]
  | ok v₆ =>
  cases h₇ : engine.create "public-rt" with
  | error e => simp_all [handleOf]
  | ok v₇ =>
  cases h₈ : engine.create "public-rta" with
  | error e => simp_all [handleOf]
  | ok v₈ =>
  cases h₉ : engine.create "private-rt" with
  | error e => simp_all [handleOf]
  | ok v₉ =>
  cases h₁₀ : engine.create "private-rta" with
  | error e => simp_all [handleOf]
  | ok v₁₀ => simp_all [handleOf]

theorem createSecurityGroup_eq (s : AgentCoreStack) (engine : Engine)
    (tags : TagMap) :
    s.createSecurityGroup engine tags =
      ((match firstFailure engine
            [Requests.sg s.config tags s.sgArgOf, Requests.sgSelfIngress] with
        | some rp => .error rp.2
        | none => .ok { s with securityGroup := some (handleOf engine "sg") }),
       takeUntilFail engine
         [Requests.sg s.config tags s.sgArgOf, Requests.sgSelfIngress]) := by
  unfold AgentCoreStack.createSecurityGroup
  cases h₁ : engine.create "sg" with
  | error e => simp_all [handleOf]
  | ok v₁ =>
  cases h₂ : engine.create "sg-self-ingress" with
  | error e => simp_all [handleOf]
  | ok v₂ => simp_all [handleOf]

theorem createIAMRole_eq (s : AgentCoreStack) (engine : Engine)
    (tags : TagMap) :
    s.createIAMRole engine tags =
      ((match firstFailure engine (iamPlanned s.config tags) with
        | some rp => .error rp.2
        | none =>
          .ok { s with executionRole := some (handleOf engine "execution-role") }),
       takeUntilFail engine (iamPlanned s.config tags)) := by
  unfold AgentCoreStack.createIAMRole
  cases h₁ : engine.create "execution-role" with
  | error e => simp_all [handleOf]
  | ok v₁ =>
  cases h₂ : engine.create "execution-policy" with
  | error e => simp_all [handleOf]
  | ok v₂ =>
  cases h₃ : engine.create "execution-policy-attachment" with
  | error e => simp_all [handleOf]
  | ok v₃ => simp_all [handleOf]

theorem createLogGroup_eq (s : AgentCoreStack) (engine : Engine)
    (tags : TagMap) :
    s.createLogGroup engine tags =
      ((match firstFailure engine (lgPlanned s.config tags) with
        | some rp => .error rp.2
        | none =>
          .ok { s with logGroup := some (handleOf engine "log-group",
                  "/aws/agentcore/" ++ s.config.stackName) }),
       takeUntilFail engine (lgPlanned s.config tags)) := by
  unfold AgentCoreStack.createLogGroup
  cases h₁ : engine.create "log-group" with
  | error e => simp_all [handleOf, lgRetention]
  | ok v₁ => simp_all [handleOf, lgRetention]

theorem vpcPlanned_phase (c : StackConfig) (tags : TagMap) :
    ∀ r ∈ vpcPlanned c tags, r.kind.phase = .network := by
  intro r hr
  simp only [vpcPlanned, Requests.vpc, Requests.igw, Requests.publicSubnet,
    Requests.privateSubnet, Requests.natEip, Requests.nat, Requests.publicRt,
    Requests.publicRta, Requests.privateRt, Requests.privateRta,
    List.mem_cons, List.not_mem_nil, or_false] at hr
  rcases hr with rfl | rfl | rfl | rfl | rfl | rfl | rfl | rfl | rfl | rfl <;> rfl

theorem sgPlanned_phase (c : StackConfig) (tags : TagMap) (arg : VpcIdArg) :
    ∀ r ∈ [Requests.sg c tags arg, Requests.sgSelfIngress],
      r.kind.phase = .securityBoundary := by
  intro r hr
  simp only [Requests.sg, Requests.sgSelfIngress, List.mem_cons,
    List.not_mem_nil, or_false] at hr
  rcases hr with rfl | rfl <;> rfl

theorem iamPlanned_phase (c : StackConfig) (tags : TagMap) :
    ∀ r ∈ iamPlanned c tags, r.kind.phase = .accessRole := by
  intro r hr
  simp only [iamPlanned, Requests.executionRole, Requests.executionPolicy,
    Requests.executionPolicyAttachment, List.mem_cons, List.not_mem_nil,
    or_false] at hr
  rcases hr with rfl | rfl | rfl <;> rfl

theorem lgPlanned_phase (c : StackConfig) (tags : TagMap) :
    ∀ r ∈ lgPlanned c tags, r.kind.phase = .logRetention := by
  intro r hr
  simp only [lgPlanned, Requests.logGroup, List.mem_cons, List.not_mem_nil,
    or_false] at hr
  rcases hr with rfl
  rfl

/-- Main characterization: on a configuration that passes validation after
defaulting, `NewAgentCoreStack` behaves exactly like the reference
description — it issues the fixed planned sequence until the first
failure, wrapping that failure with its phase's message, and on full
success returns the final stack and exports. -/
theorem NewAgentCoreStack_eq (engine : Engine) (c : StackConfig)
    (h : validate (applyDefaults c) = .ok ()) :
    NewAgentCoreStack engine c = referenceOutcome engine (applyDefaults c) := by
  unfold NewAgentCoreStack referenceOutcome plannedRequests
  simp only [h]
  set cfg := applyDefaults c with hcfg
  set tg := mapInsert cfg.tags "ManagedBy" "agentkit-pulumi" with htg
  by_cases hv : cfg.vpcD.createVPC = true
  · by_cases hl : cfg.obsD.enableCloudWatchLogs = true
    · simp only [if_pos hv, if_pos hl, createVPC_eq, List.append_assoc]
      rw [firstFailure_append, takeUntilFail_append]
      cases hf₁ : firstFailure engine (vpcPlanned cfg tg) with
      | some rp =>
        obtain ⟨r, e⟩ := rp
        have hph : r.kind.phase = .network :=
          vpcPlanned_phase _ _ r (firstFailure_mem engine _ r e hf₁).1
        dsimp only
        rw [hph]
        rfl
      | none =>
        dsimp only
        rw [takeUntilFail_eq_self engine _ hf₁]
        rw [createSecurityGroup_eq]
        dsimp only [AgentCoreStack.sgArgOf]
        rw [firstFailure_append, takeUntilFail_append]
        simp only [sgPlanned, sgVpcIdArg, if_pos hv]
        cases hf₂ : firstFailure engine
            [Requests.sg cfg tg VpcIdArg.createdVPC, Requests.sgSelfIngress] with
        | some rp =>
          obtain ⟨r, e⟩ := rp
          have hph : r.kind.phase = .securityBoundary :=
            sgPlanned_phase cfg tg _ r (firstFailure_mem engine _ r e hf₂).1
          dsimp only
          rw [hph]
          rfl
        | none =>
          dsimp only
          rw [takeUntilFail_eq_self engine _ hf₂]
          rw [createIAMRole_eq]
          dsimp only
          rw [firstFailure_append, takeUntilFail_append]
          cases hf₃ : firstFailure engine (iamPlanned cfg tg) with
          | some rp =>
            obtain ⟨r, e⟩ := rp
            have hph : r.kind.phase = .accessRole :=
              iamPlanned_phase _ _ r (firstFailure_mem engine _ r e hf₃).1
            dsimp only
            rw [hph]
            rfl
          | none =>
            dsimp only
            rw [takeUntilFail_eq_self engine _ hf₃]
            rw [createLogGroup_eq]
            dsimp only
            cases hf₄ : firstFailure engine (lgPlanned cfg tg) with
            | some rp =>
              obtain ⟨r, e⟩ := rp
              have hph : r.kind.phase = .logRetention :=
                lgPlanned_phase _ _ r (firstFailure_mem engine _ r e hf₄).1
              dsimp only
              rw [hph]
              rfl
            | none =>
              dsimp only
              rw [takeUntilFail_eq_self engine _ hf₄]
              simp only [preExportStack, if_pos hv, if_pos hl]
    · simp only [if_pos hv, if_neg hl, createVPC_eq, List.append_assoc,
        List.append_nil]
      rw [firstFailure_append, takeUntilFail_append]
      cases hf₁ : firstFailure engine (vpcPlanned cfg tg) with
      | some rp =>
        obtain ⟨r, e⟩ := rp
        have hph : r.kind.phase = .network :=
          vpcPlanned_phase _ _ r (firstFailure_mem engine _ r e hf₁).1
        dsimp only
        rw [hph]
        rfl
      | none =>
        dsimp only
        rw [takeUntilFail_eq_self engine _ hf₁]
        rw [createSecurityGroup_eq]
        dsimp only [AgentCoreStack.sgArgOf]
        rw [firstFailure_append, takeUntilFail_append]
        simp only [sgPlanned, sgVpcIdArg, if_pos hv]
        cases hf₂ : firstFailure engine
            [Requests.sg cfg tg VpcIdArg.createdVPC, Requests.sgSelfIngress] with
        | some rp =>
          obtain ⟨r, e⟩ := rp
          have hph : r.kind.phase = .securityBoundary :=
            sgPlanned_phase cfg tg _ r (firstFailure_mem engine _ r e hf₂).1
          dsimp only
          rw [hph]
          rfl
        | none =>
          dsimp only
          rw [takeUntilFail_eq_self engine _ hf₂]
          rw [createIAMRole_eq]
          dsimp only
          cases hf₃ : firstFailure engine (iamPlanned cfg tg) with
          | some rp =>
            obtain ⟨r, e⟩ := rp
            have hph : r.kind.phase = .accessRole :=
              iamPlanned_phase _ _ r (firstFailure_mem engine _ r e hf₃).1
            dsimp only
            rw [hph]
            rfl
          | none =>
            dsimp only
            rw [takeUntilFail_eq_self engine _ hf₃]
            simp only [preExportStack, if_pos hv, if_neg hl]
  · by_cases hl : cfg.obsD.enableCloudWatchLogs = true
    · simp only [if_neg hv, if_pos hl, List.append_assoc, List.nil_append]
      rw [createSecurityGroup_eq]
      dsimp only [AgentCoreStack.sgArgOf]
      rw [firstFailure_append, takeUntilFail_append]
      simp only [sgPlanned, sgVpcIdArg, if_neg hv]
      cases hf₂ : firstFailure engine
          [Requests.sg cfg tg
             (if cfg.vpcD.vpcId ≠ "" then VpcIdArg.existing cfg.vpcD.vpcId
              else VpcIdArg.unset),
           Requests.sgSelfIngress] with
      | some rp =>
        obtain ⟨r, e⟩ := rp
        have hph : r.kind.phase = .securityBoundary :=
          sgPlanned_phase cfg tg _ r (firstFailure_mem engine _ r e hf₂).1
        dsimp only
        rw [hph]
        rfl
      | none =>
        dsimp only
        rw [takeUntilFail_eq_self engine _ hf₂]
        rw [createIAMRole_eq]
        dsimp only
        rw [firstFailure_append, takeUntilFail_append]
        cases hf₃ : firstFailure engine (iamPlanned cfg tg) with
        | some rp =>
          obtain ⟨r, e⟩ := rp
          have hph : r.kind.phase = .accessRole :=
            iamPlanned_phase _ _ r (firstFailure_mem engine _ r e hf₃).1
          dsimp only
          rw [hph]
          rfl
        | none =>
          dsimp only
          rw [takeUntilFail_eq_self engine _ hf₃]
          rw [createLogGroup_eq]
          dsimp only
          cases hf₄ : firstFailure engine (lgPlanned cfg tg) with
          | some rp =>
            obtain ⟨r, e⟩ := rp
            have hph : r.kind.phase = .logRetention :=
              lgPlanned_phase _ _ r (firstFailure_mem engine _ r e hf₄).1
            dsimp only
            rw [hph]
            rfl
          | none =>
            dsimp only
            rw [takeUntilFail_eq_self engine _ hf₄]
            simp only [preExportStack, if_neg hv, if_pos hl]
    · simp only [if_neg hv, if_neg hl, List.append_assoc, List.nil_append,
        List.append_nil]
      rw [createSecurityGroup_eq]
      dsimp only [AgentCoreStack.sgArgOf]
      rw [firstFailure_append, takeUntilFail_append]
      simp only [sgPlanned, sgVpcIdArg, if_neg hv]
      cases hf₂ : firstFailure engine
          [Requests.sg cfg tg
             (if cfg.vpcD.vpcId ≠ "" then VpcIdArg.existing cfg.vpcD.vpcId
              else VpcIdArg.unset),
           Requests.sgSelfIngress] with
      | some rp =>
        obtain ⟨r, e⟩ := rp
        have hph : r.kind.phase = .securityBoundary :=
          sgPlanned_phase cfg tg _ r (firstFailure_mem engine _ r e hf₂).1
        dsimp only
        rw [hph]
        rfl
      | none =>
        dsimp only
        rw [takeUntilFail_eq_self engine _ hf₂]
        rw [createIAMRole_eq]
        dsimp only
        cases hf₃ : firstFailure engine (iamPlanned cfg tg) with
        | some rp =>
          obtain ⟨r, e⟩ := rp
          have hph : r.kind.phase = .accessRole :=
            iamPlanned_phase _ _ r (firstFailure_mem engine _ r e hf₃).1
          dsimp only
          rw [hph]
          rfl
        | none =>
          dsimp only
          rw [takeUntilFail_eq_self engine _ hf₃]
          simp only [preExportStack, if_neg hv, if_neg hl]

/-! ## Lookup lemmas for the tag-map operations -/

theorem lookup_map_replace (m : TagMap) (k v : String)
    (hs : (m.lookup k).isSome) :
    (m.map (fun p => if p.1 = k then (k, v) else p)).lookup k = some v := by
  induction m with
  | nil => simp [List.lookup] at hs
  | cons p ps ih =>
    obtain ⟨a, b⟩ := p
    simp only [List.map_cons]
    by_cases hak : a = k
    · subst hak
      rw [if_pos rfl]
      simp [List.lookup]
    · rw [if_neg hak]
      have hba : (k == a) = false :=
        beq_eq_false_iff_ne.mpr (fun hh => hak hh.symm)
      simp only [List.lookup, hba] at hs ⊢
      exact ih hs

theorem lookup_map_replace_ne (m : TagMap) (k v k' : String) (hne : k' ≠ k) :
    (m.map (fun p => if p.1 = k then (k, v) else p)).lookup k' = m.lookup k' := by
  induction m with
  | nil => simp
  | cons p ps ih =>
    obtain ⟨a, b⟩ := p
    simp only [List.map_cons]
    by_cases hak : a = k
    · subst hak
      rw [if_pos rfl]
      have hkb : (k' == a) = false := beq_eq_false_iff_ne.mpr hne
      simp only [List.lookup, hkb]
      exact ih
    · rw [if_neg hak]
      by_cases hk'a : k' = a
      · have : (k' == a) = true := beq_iff_eq.mpr hk'a
        simp only [List.lookup, this]
      · have : (k' == a) = false := beq_eq_false_iff_ne.mpr hk'a
        simp only [List.lookup, this]
        exact ih

theorem lookup_append_single (m : TagMap) (k v : String)
    (hn : m.lookup k = none) :
    (m ++ [(k, v)]).lookup k = some v := by
  induction m with
  | nil => simp [List.lookup]
  | cons p ps ih =>
    obtain ⟨a, b⟩ := p
    by_cases hka : k = a
    · have : (k == a) = true := beq_iff_eq.mpr hka
      simp only [List.lookup, this] at hn
      cases hn
    · have hba : (k == a) = false := beq_eq_false_iff_ne.mpr hka
      simp only [List.lookup, hba] at hn
      simp only [List.cons_append, List.lookup, hba]
      exact ih hn

theorem lookup_append_single_ne (m : TagMap) (k v k' : String) (hne : k' ≠ k) :
    (m ++ [(k, v)]).lookup k' = m.lookup k' := by
  induction m with
  | nil =>
    have : (k' == k) = false := beq_eq_false_iff_ne.mpr hne
    simp [List.lookup, this]
  | cons p ps ih =>
    obtain ⟨a, b⟩ := p
    simp only [List.cons_append, List.lookup]
    by_cases hk'a : k' = a
    · have : (k' == a) = true := beq_iff_eq.mpr hk'a
      simp only [this]
    · have : (k' == a) = false := beq_eq_false_iff_ne.mpr hk'a
      simp only [this]
      exact ih

/-- `mapInsert` binds `k` to `v`. -/
theorem lookup_mapInsert (m : TagMap) (k v : String) :
    (mapInsert m k v).lookup k = some v := by
  unfold mapInsert
  split
  · exact lookup_map_replace m k v (by assumption)
  · refine lookup_append_single m k v ?_
    rename_i hs
    cases hm : m.lookup k with
    | none => rfl
    | some w => rw [hm] at hs; simp at hs

/-- `mapInsert` leaves every other key untouched. -/
theorem lookup_mapInsert_ne (m : TagMap) (k v k' : String) (hne : k' ≠ k) :
    (mapInsert m k v).lookup k' = m.lookup k' := by
  unfold mapInsert
  split
  · exact lookup_map_replace_ne m k v k' hne
  · exact lookup_append_single_ne m k v k' hne

/-- `mergeTags` binds `Name`. -/
theorem mergeTags_lookup_name (base : TagMap) (name : String) :
    (mergeTags base name).lookup "Name" = some name :=
  lookup_mapInsert base "Name" name

/-- `mergeTags` preserves every key other than `Name`. -/
theorem mergeTags_lookup_ne (base : TagMap) (name k : String)
    (h : k ≠ "Name") :
    (mergeTags base name).lookup k = base.lookup k :=
  lookup_mapInsert_ne base "Name" name k h

/-! ## Derived facts about whole runs -/

/-- A validated "use existing" VPC configuration carries a VPC id. -/
theorem validate_existing_vpcId (c : StackConfig) (v : VPCConfig)
    (h : validate c = .ok ()) (hv : c.vpc = some v)
    (hcv : v.createVPC = false) : v.vpcId ≠ "" := by
  intro hid
  have h' : validateVPC c = .ok () := by
    unfold validate at h
    repeat' split at h
    all_goals first | exact h | exact Except.noConfusion h
  unfold validateVPC at h'
  rw [hv] at h'
  dsimp only at h'
  rw [if_neg (by rw [hcv]; exact Bool.false_ne_true)] at h'
  rw [if_pos hid] at h'
  exact Except.noConfusion h' 

/-- The full planned sequence for a configuration, after defaulting and
tagging: what the translator will attempt. -/
def plannedOf (c : StackConfig) : List Request :=
  plannedRequests (applyDefaults c)
    (mapInsert (applyDefaults c).tags "ManagedBy" "agentkit-pulumi")

theorem run_trace_eq (engine : Engine) (c : StackConfig)
    (h : validate (applyDefaults c) = .ok ()) :
    (NewAgentCoreStack engine c).2.1 = takeUntilFail engine (plannedOf c) := by
  rw [NewAgentCoreStack_eq engine c h]
  simp only [referenceOutcome, plannedOf]
  cases hf : firstFailure engine
      (plannedRequests (applyDefaults c)
        (mapInsert (applyDefaults c).tags "ManagedBy" "agentkit-pulumi")) with
  | some rp => rfl
  | none =>
    dsimp only
    rw [takeUntilFail_eq_self engine _ hf]

theorem trace_mem_planned (engine : Engine) (c : StackConfig)
    (h : validate (applyDefaults c) = .ok ()) :
    ∀ r ∈ (NewAgentCoreStack engine c).2.1, r ∈ plannedOf c := by
  intro r hr
  rw [run_trace_eq engine c h] at hr
  exact (takeUntilFail_prefixOf engine _).subset hr

theorem run_error_eq (engine : Engine) (c : StackConfig)
    (h : validate (applyDefaults c) = .ok ()) (rp : Request × String)
    (hf : firstFailure engine (plannedOf c) = some rp) :
    (NewAgentCoreStack engine c).1 =
      .error (phasePrefix rp.1.kind.phase ++ rp.2) := by
  rw [NewAgentCoreStack_eq engine c h]
  simp only [referenceOutcome]
  rw [show plannedRequests (applyDefaults c)
      (mapInsert (applyDefaults c).tags "ManagedBy" "agentkit-pulumi") =
      plannedOf c from rfl, hf]

theorem run_ok_eq (engine : Engine) (c : StackConfig)
    (h : validate (applyDefaults c) = .ok ())
    (hf : firstFailure engine (plannedOf c) = none) :
    NewAgentCoreStack engine c =
      (.ok (preExportStack engine (applyDefaults c)).exportOutputs.1,
       plannedOf c,
       (preExportStack engine (applyDefaults c)).exportOutputs.2) := by
  rw [NewAgentCoreStack_eq engine c h]
  simp only [referenceOutcome]
  rw [show plannedRequests (applyDefaults c)
      (mapInsert (applyDefaults c).tags "ManagedBy" "agentkit-pulumi") =
      plannedOf c from rfl, hf]

theorem run_isOk_iff (engine : Engine) (c : StackConfig)
    (h : validate (applyDefaults c) = .ok ()) :
    (NewAgentCoreStack engine c).1.isOk = true ↔
      firstFailure engine (plannedOf c) = none := by
  cases hf : firstFailure engine (plannedOf c) with
  | some rp =>
    rw [run_error_eq engine c h rp hf]
    simp [Except.isOk, Except.toBool]
  | none =>
    rw [run_ok_eq engine c h hf]
    simp [Except.isOk, Except.toBool]

/-- The planned sequence is ordered by translation phase. -/
theorem plannedRequests_sorted (c : StackConfig) (tags : TagMap) :
    (plannedRequests c tags).Pairwise
      (fun a b => a.kind.phase.idx ≤ b.kind.phase.idx) := by
  have hA : ∀ r ∈ (if c.vpcD.createVPC then vpcPlanned c tags else []),
      r.kind.phase.idx = 0 := by
    intro r hr
    split at hr
    · rw [vpcPlanned_phase c tags r hr]
      rfl
    · simp at hr
  have hB : ∀ r ∈ sgPlanned c tags, r.kind.phase.idx = 1 := by
    intro r hr
    unfold sgPlanned at hr
    rw [sgPlanned_phase c tags _ r hr]
    rfl
  have hC : ∀ r ∈ iamPlanned c tags, r.kind.phase.idx = 2 := by
    intro r hr
    rw [iamPlanned_phase c tags r hr]
    rfl
  have hD : ∀ r ∈ (if c.obsD.enableCloudWatchLogs then lgPlanned c tags else []),
      r.kind.phase.idx = 3 := by
    intro r hr
    split at hr
    · rw [lgPlanned_phase c tags r hr]
      rfl
    · simp at hr
  unfold plannedRequests
  simp only [List.append_assoc]
  refine List.pairwise_append.2 ⟨?_, ?_, ?_⟩
  · exact List.pairwise_of_forall_mem_list
      (fun a ha b hb => by rw [hA a ha, hA b hb])
  · refine List.pairwise_append.2 ⟨?_, ?_, ?_⟩
    · exact List.pairwise_of_forall_mem_list
        (fun a ha b hb => by rw [hB a ha, hB b hb])
    · refine List.pairwise_append.2 ⟨?_, ?_, ?_⟩
      · exact List.pairwise_of_forall_mem_list
          (fun a ha b hb => by rw [hC a ha, hC b hb])
      · exact List.pairwise_of_forall_mem_list
          (fun a ha b hb => by rw [hD a ha, hD b hb])
      · intro a ha b hb
        rw [hC a ha, hD b hb]
        omega
    · intro a ha b hb
      rw [hB a ha]
      rcases List.mem_append.1 hb with hb | hb
      · rw [hC b hb]; omega
      · rw [hD b hb]; omega
  · intro a ha b hb
    rw [hA a ha]
    omega

/-- Phase order along the issued trace: the translator never issues a
request of an earlier phase after one of a later phase. -/
theorem run_trace_sorted (engine : Engine) (c : StackConfig)
    (h : validate (applyDefaults c) = .ok ()) :
    (NewAgentCoreStack engine c).2.1.Pairwise
      (fun a b => a.kind.phase.idx ≤ b.kind.phase.idx) := by
  rw [run_trace_eq engine c h]
  exact (plannedRequests_sorted _ _).sublist (takeUntilFail_prefixOf engine _).sublist

/-- Every tag map attached to a planned request is `mergeTags` of the
stack-wide tag map with some resource name. -/
theorem planned_tags (c : StackConfig) (tags : TagMap) :
    ∀ r ∈ plannedRequests c tags, ∀ m, r.tags = some m →
      ∃ nm, m = mergeTags tags nm := by
  intro r hr m hm
  unfold plannedRequests at hr
  simp only [List.append_assoc, List.mem_append] at hr
  rcases hr with hr | hr | hr | hr
  · split at hr
    · simp only [vpcPlanned, List.mem_cons, List.not_mem_nil, or_false] at hr
      rcases hr with rfl | rfl | rfl | rfl | rfl | rfl | rfl | rfl | rfl | rfl <;>
        simp only [Requests.vpc, Requests.igw, Requests.publicSubnet,
          Requests.privateSubnet, Requests.natEip, Requests.nat,
          Requests.publicRt, Requests.publicRta, Requests.privateRt,
          Requests.privateRta, Option.some.injEq] at hm <;>
        first
          | exact ⟨_, hm.symm⟩
          | exact Option.noConfusion hm
    · simp at hr
  · simp only [sgPlanned, List.mem_cons, List.not_mem_nil, or_false] at hr
    rcases hr with rfl | rfl <;>
      simp only [Requests.sg, Requests.sgSelfIngress, Option.some.injEq] at hm <;>
      first
        | exact ⟨_, hm.symm⟩
        | exact Option.noConfusion hm
  · simp only [iamPlanned, List.mem_cons, List.not_mem_nil, or_false] at hr
    rcases hr with rfl | rfl | rfl <;>
      simp only [Requests.executionRole, Requests.executionPolicy,
        Requests.executionPolicyAttachment, Option.some.injEq] at hm <;>
      first
        | exact ⟨_, hm.symm⟩
        | exact Option.noConfusion hm
  · split at hr
    · simp only [lgPlanned, List.mem_cons, List.not_mem_nil, or_false] at hr
      rcases hr with rfl
      simp only [Requests.logGroup, Option.some.injEq] at hm
      exact ⟨_, hm.symm⟩
    · simp at hr

/-- Every planned log-group request carries the defaulted retention. -/
theorem planned_logGroup_retention (c : StackConfig) (tags : TagMap) :
    ∀ r ∈ plannedRequests c tags, r.kind = .logGroup →
      r.retentionInDays = some (lgRetention c) := by
  intro r hr hk
  unfold plannedRequests at hr
  simp only [List.append_assoc, List.mem_append] at hr
  rcases hr with hr | hr | hr | hr
  · split at hr
    · simp only [vpcPlanned, List.mem_cons, List.not_mem_nil, or_false] at hr
      rcases hr with rfl | rfl | rfl | rfl | rfl | rfl | rfl | rfl | rfl | rfl <;>
        simp only [Requests.vpc, Requests.igw, Requests.publicSubnet,
          Requests.privateSubnet, Requests.natEip, Requests.nat,
          Requests.publicRt, Requests.publicRta, Requests.privateRt,
          Requests.privateRta] at hk <;> cases hk
    · simp at hr
  · simp only [sgPlanned, List.mem_cons, List.not_mem_nil, or_false] at hr
    rcases hr with rfl | rfl <;>
      simp only [Requests.sg, Requests.sgSelfIngress] at hk <;> cases hk
  · simp only [iamPlanned, List.mem_cons, List.not_mem_nil, or_false] at hr
    rcases hr with rfl | rfl | rfl <;>
      simp only [Requests.executionRole, Requests.executionPolicy,
        Requests.executionPolicyAttachment] at hk <;> cases hk
  · split at hr
    · simp only [lgPlanned, List.mem_cons, List.not_mem_nil, or_false] at hr
      rcases hr with rfl
      rfl
    · simp at hr

/-- The names of the outputs a successful translation exports, in order. -/
theorem preExport_export_keys (engine : Engine) (c : StackConfig) :
    (preExportStack engine c).exportOutputs.2.map Prod.fst =
      (if c.vpcD.createVPC then ["vpcId", "privateSubnetId"] else [])
        ++ ["securityGroupId", "executionRoleArn"]
        ++ (if c.obsD.enableCloudWatchLogs then ["logGroupName"] else [])
        ++ ["agentCount"] := by
  by_cases hv : c.vpcD.createVPC = true <;>
    by_cases hl : c.obsD.enableCloudWatchLogs = true <;>
      simp [preExportStack, AgentCoreStack.exportOutputs, hv, hl]

/-- The `agentCount` output of a successful translation. -/
theorem preExport_export_agentCount (engine : Engine) (c : StackConfig) :
    (preExportStack engine c).exportOutputs.2.lookup "agentCount" =
      some (toString c.agents.length) := by
  by_cases hv : c.vpcD.createVPC = true <;>
    by_cases hl : c.obsD.enableCloudWatchLogs = true <;>
      simp [preExportStack, AgentCoreStack.exportOutputs, hv, hl, List.lookup]

/-- The comma-separated rendering of a string list (`x1, x2, ..., xn`). -/
def commaSeparated : List String → String
  | [] => ""
  | [x] => x
  | x :: y :: rest => x ++ ", " ++ commaSeparated (y :: rest)

theorem foldl_comma_tail (f : String → String) (xs : List String)
    (acc : String) (n : Nat) (hn : 0 < n) :
    (List.enumFrom n xs).foldl
        (fun a p => a ++ (if p.1 > 0 then ", " else "") ++ f p.2) acc =
      acc ++ (match xs.map f with
              | [] => ""
              | y :: ys => ", " ++ commaSeparated (y :: ys)) := by
  induction xs generalizing acc n with
  | nil => simp [String.append_empty]
  | cons x rest ih =>
    simp only [List.enumFrom, List.foldl, List.map_cons]
    rw [if_pos hn]
    rw [ih (acc ++ ", " ++ f x) (n + 1) (Nat.succ_pos n)]
    cases hrest : rest.map f with
    | nil =>
      simp [commaSeparated, String.append_assoc, String.append_empty]
    | cons y ys =>
      simp [commaSeparated, String.append_assoc]

/-- The Bedrock resource string for a non-empty allow-list is the JSON
array of the per-model ARNs. -/
theorem bedrockResource_nonempty (iam : IAMConfig)
    (h : iam.bedrockModelIDs ≠ []) :
    bedrockResource iam =
      "[" ++ commaSeparated (iam.bedrockModelIDs.map bedrockArn) ++ "]" := by
  unfold bedrockResource
  cases hids : iam.bedrockModelIDs with
  | nil => exact absurd hids h
  | cons x rest =>
    rw [if_pos (by simp [hids])]
    simp only [hids, List.enum]
    simp only [List.enumFrom, List.foldl]
    rw [if_neg (by omega)]
    rw [foldl_comma_tail bedrockArn rest ("" ++ "" ++ bedrockArn x) 1
      Nat.one_pos]
    simp only [String.empty_append, List.map_cons]
    cases hrest : rest.map bedrockArn with
    | nil =>
      simp [commaSeparated, String.append_empty]
    | cons y ys =>
      simp [commaSeparated, String.append_assoc]

/-- The Bedrock resource string for an empty allow-list is the wildcard. -/
theorem bedrockResource_empty (iam : IAMConfig)
    (h : iam.bedrockModelIDs = []) :
    bedrockResource iam = "\"arn:aws:bedrock:*:*:foundation-model/*\"" := by
  unfold bedrockResource
  rw [if_neg (by simp [h])]

/-! ## Concrete fixtures for witnesses and counterexamples -/

/-- An engine on which every request succeeds. -/
def engineOk : Engine := ⟨fun name => .ok ("id-" ++ name)⟩

/-- An engine on which the security-group request fails. -/
def engineFailSG : Engine :=
  ⟨fun name => if name = "sg" then .error "quota exceeded"
   else .ok ("id-" ++ name)⟩

/-- A minimal valid configuration (defaults fill the rest). -/
def cGood : StackConfig :=
  { stackName := "demo", agents := [DefaultAgentConfig "a" "img"] }

/-- A valid configuration using an existing VPC. -/
def cExisting : StackConfig :=
  { stackName := "demo", agents := [DefaultAgentConfig "a" "img"],
    vpc := some { vpcId := "vpc-123", subnetIds := ["subnet-1"] } }

/-- A valid configuration with a user-supplied `Name` tag. -/
def cNameTag : StackConfig :=
  { stackName := "demo", agents := [DefaultAgentConfig "a" "img"],
    tags := [("Name", "custom"), ("Env", "prod")] }

/-- A valid configuration requesting zero log retention. -/
def cRetentionZero : StackConfig :=
  { stackName := "demo", agents := [DefaultAgentConfig "a" "img"],
    observability := some
      { provider := "cloudwatch",
        enableCloudWatchLogs := true, logRetentionDays := 0 } }

/-! ## The claims -/

/-- C1: `NewAgentCoreStack` applies defaults and validates first; when
validation fails it returns the wrapped validation error together with a
nil stack, and issues no resource-creation request (empty trace, no
exports): invalid configuration never causes a partial translation. -/
theorem C1_validation_fail_fast (engine : Engine) (c : StackConfig)
    (err : String) (h : validate (applyDefaults c) = .error err) :
    NewAgentCoreStack engine c =
      (.error ("invalid stack configuration: " ++ err), [], []) := by
  simp only [NewAgentCoreStack, h]

/-- Witness for C1: the empty stack name fails validation, and the run
issues nothing. -/
theorem C1_validation_fail_fast_witness :
    validate (applyDefaults ({ stackName := "" } : StackConfig)) =
      .error "stack name is required" ∧
    NewAgentCoreStack engineOk { stackName := "" } =
      (.error ("invalid stack configuration: " ++ "stack name is required"),
       [], []) :=
  ⟨rfl, C1_validation_fail_fast engineOk { stackName := "" }
    "stack name is required" rfl⟩

/-- A request of the issued trace on which the engine fails is the first
failure of the attempted sequence. -/
theorem takeUntilFail_fail_firstFailure (engine : Engine) (l : List Request)
    (r : Request) (msg : String) (hmem : r ∈ takeUntilFail engine l)
    (hm : engine.create r.name = .error msg) :
    firstFailure engine l = some (r, msg) := by
  induction l with
  | nil => simp [takeUntilFail] at hmem
  | cons r₀ rs ih =>
    cases he : engine.create r₀.name with
    | ok v =>
      simp only [takeUntilFail, he, List.mem_cons] at hmem
      rcases hmem with rfl | hmem
      · rw [he] at hm
        cases hm
      · simp only [firstFailure, he]
        exact ih hmem
    | error e =>
      simp only [takeUntilFail, he, List.mem_cons, List.not_mem_nil,
        or_false] at hmem
      subst hmem
      rw [he] at hm
      injection hm with hh
      subst hh
      simp [firstFailure, he]

/-- C2: for a validated configuration the issued requests follow the fixed
phase order network → security boundary → access role → log retention;
when the result is an error, the error wraps the failing request's phase
message, the failing request is the last issued one, and every request
issued before it succeeded — no later request is issued after a failure;
and conversely, any issued request on which the engine fails forces the
run to return the error naming that request's resource kind (a failure is
never swallowed into a success). -/
theorem C2_fixed_order_and_abort (engine : Engine) (c : StackConfig)
    (h : validate (applyDefaults c) = .ok ()) :
    (NewAgentCoreStack engine c).2.1.Pairwise
        (fun a b => a.kind.phase.idx ≤ b.kind.phase.idx) ∧
    (∀ e, (NewAgentCoreStack engine c).1 = .error e →
      ∃ r msg, (NewAgentCoreStack engine c).2.1.getLast? = some r ∧
        engine.create r.name = .error msg ∧
        e = phasePrefix r.kind.phase ++ msg ∧
        ∀ r' ∈ (NewAgentCoreStack engine c).2.1.dropLast,
          (engine.create r'.name).isOk) ∧
    (∀ r ∈ (NewAgentCoreStack engine c).2.1, ∀ msg,
      engine.create r.name = .error msg →
        (NewAgentCoreStack engine c).1 =
          .error (phasePrefix r.kind.phase ++ msg)) := by
  refine ⟨run_trace_sorted engine c h, ?_, ?_⟩
  · intro e he
    cases hf : firstFailure engine (plannedOf c) with
    | none =>
      simp only [run_ok_eq engine c h hf] at he
      exact Except.noConfusion he
    | some rp =>
      obtain ⟨r, msg⟩ := rp
      refine ⟨r, msg, ?_, (firstFailure_mem engine _ r msg hf).2, ?_, ?_⟩
      · rw [run_trace_eq engine c h]
        exact takeUntilFail_getLast engine _ r msg hf
      · rw [run_error_eq engine c h (r, msg) hf] at he
        injection he with hh
        exact hh.symm
      · rw [run_trace_eq engine c h]
        exact takeUntilFail_dropLast_ok engine _ r msg hf
  · intro r hr msg hm
    rw [run_trace_eq engine c h] at hr
    exact run_error_eq engine c h (r, msg)
      (takeUntilFail_fail_firstFailure engine _ r msg hr hm)

/-- Witness for C2: a valid configuration run against an engine whose
security-group request fails does return the phase-wrapped error, and the
instantiated order/abort properties hold. -/
theorem C2_fixed_order_and_abort_witness :
    validate (applyDefaults cGood) = .ok () ∧
    (NewAgentCoreStack engineFailSG cGood).1 =
      .error ("failed to create security group: " ++ "quota exceeded") ∧
    ((NewAgentCoreStack engineFailSG cGood).2.1.Pairwise
        (fun a b => a.kind.phase.idx ≤ b.kind.phase.idx) ∧
     (∀ e, (NewAgentCoreStack engineFailSG cGood).1 = .error e →
       ∃ r msg, (NewAgentCoreStack engineFailSG cGood).2.1.getLast? = some r ∧
         engineFailSG.create r.name = .error msg ∧
         e = phasePrefix r.kind.phase ++ msg ∧
         ∀ r' ∈ (NewAgentCoreStack engineFailSG cGood).2.1.dropLast,
           (engineFailSG.create r'.name).isOk) ∧
     (∀ r ∈ (NewAgentCoreStack engineFailSG cGood).2.1, ∀ msg,
       engineFailSG.create r.name = .error msg →
         (NewAgentCoreStack engineFailSG cGood).1 =
           .error (phasePrefix r.kind.phase ++ msg))) :=
  ⟨rfl, rfl, C2_fixed_order_and_abort engineFailSG cGood rfl⟩

/-- C3 (amended): after a successful translation the exported output names
are, in order: `vpcId` and `privateSubnetId` exactly when a new VPC was
created, then `securityGroupId` and `executionRoleArn` always, then
`logGroupName` exactly when CloudWatch logs are enabled, then
`agentCount`, whose value is the number of agents in the configuration. -/
theorem C3_outputs_exported (engine : Engine) (c : StackConfig)
    (h : validate (applyDefaults c) = .ok ())
    (hok : (NewAgentCoreStack engine c).1.isOk = true) :
    (NewAgentCoreStack engine c).2.2.map Prod.fst =
      (if (applyDefaults c).vpcD.createVPC then ["vpcId", "privateSubnetId"]
       else [])
        ++ ["securityGroupId", "executionRoleArn"]
        ++ (if (applyDefaults c).obsD.enableCloudWatchLogs then ["logGroupName"]
            else [])
        ++ ["agentCount"] ∧
    (NewAgentCoreStack engine c).2.2.lookup "agentCount" =
      some (toString c.agents.length) := by
  have hf := (run_isOk_iff engine c h).1 hok
  have hlen : (applyDefaults c).agents.length = c.agents.length := by
    simp [applyDefaults]
  constructor
  · simp only [run_ok_eq engine c h hf]
    exact preExport_export_keys engine _
  · simp only [run_ok_eq engine c h hf]
    rw [preExport_export_agentCount engine _, hlen]

/-- Counterexample for C3 as stated: a successful translation over an
existing VPC exports no `vpcId` output. -/
theorem C3_counterexample :
    (NewAgentCoreStack engineOk cExisting).1.isOk = true ∧
    "vpcId" ∉ (NewAgentCoreStack engineOk cExisting).2.2.map Prod.fst := by
  exact ⟨rfl, by decide⟩

/-- Witness for C3 (amended): the default-VPC, logs-enabled configuration
exports all six outputs. -/
theorem C3_outputs_exported_witness :
    (validate (applyDefaults cGood) = .ok () ∧
     (NewAgentCoreStack engineOk cGood).1.isOk = true) ∧
    ((NewAgentCoreStack engineOk cGood).2.2.map Prod.fst =
      (if (applyDefaults cGood).vpcD.createVPC then ["vpcId", "privateSubnetId"]
       else [])
        ++ ["securityGroupId", "executionRoleArn"]
        ++ (if (applyDefaults cGood).obsD.enableCloudWatchLogs then
              ["logGroupName"] else [])
        ++ ["agentCount"] ∧
     (NewAgentCoreStack engineOk cGood).2.2.lookup "agentCount" =
       some (toString cGood.agents.length)) :=
  ⟨⟨rfl, rfl⟩, C3_outputs_exported engineOk cGood rfl rfl⟩

/-- The head of a nonempty request list is always issued. -/
theorem takeUntilFail_cons_mem (engine : Engine) (r : Request)
    (rs : List Request) : r ∈ takeUntilFail engine (r :: rs) := by
  simp only [takeUntilFail]
  cases engine.create r.name <;> simp

/-- Every planned security-group request carries the configured VpcId
argument. -/
theorem planned_sg_arg (c : StackConfig) (tags : TagMap) :
    ∀ r ∈ plannedRequests c tags, r.kind = .securityGroup →
      r.vpcIdArg = some (sgVpcIdArg c) := by
  intro r hr hk
  unfold plannedRequests at hr
  simp only [List.append_assoc, List.mem_append] at hr
  rcases hr with hr | hr | hr | hr
  · split at hr
    · simp only [vpcPlanned, List.mem_cons, List.not_mem_nil, or_false] at hr
      rcases hr with rfl | rfl | rfl | rfl | rfl | rfl | rfl | rfl | rfl | rfl <;>
        simp only [Requests.vpc, Requests.igw, Requests.publicSubnet,
          Requests.privateSubnet, Requests.natEip, Requests.nat,
          Requests.publicRt, Requests.publicRta, Requests.privateRt,
          Requests.privateRta] at hk <;> cases hk
    · simp at hr
  · simp only [sgPlanned, List.mem_cons, List.not_mem_nil, or_false] at hr
    rcases hr with rfl | rfl
    · rfl
    · simp only [Requests.sgSelfIngress] at hk; cases hk
  · simp only [iamPlanned, List.mem_cons, List.not_mem_nil, or_false] at hr
    rcases hr with rfl | rfl | rfl <;>
      simp only [Requests.executionRole, Requests.executionPolicy,
        Requests.executionPolicyAttachment] at hk <;> cases hk
  · split at hr
    · simp only [lgPlanned, List.mem_cons, List.not_mem_nil, or_false] at hr
      rcases hr with rfl
      simp only [Requests.logGroup] at hk
      cases hk
    · simp at hr

/-- Without `createVPC`, no planned request is of the VPC kind. -/
theorem planned_no_vpc (c : StackConfig) (tags : TagMap)
    (hv : c.vpcD.createVPC = false) :
    ∀ r ∈ plannedRequests c tags, r.kind ≠ .vpc := by
  intro r hr hk
  unfold plannedRequests at hr
  simp only [List.append_assoc, List.mem_append] at hr
  rcases hr with hr | hr | hr | hr
  · rw [if_neg (by rw [hv]; exact Bool.false_ne_true)] at hr
    simp at hr
  · simp only [sgPlanned, List.mem_cons, List.not_mem_nil, or_false] at hr
    rcases hr with rfl | rfl <;>
      simp only [Requests.sg, Requests.sgSelfIngress] at hk <;> cases hk
  · simp only [iamPlanned, List.mem_cons, List.not_mem_nil, or_false] at hr
    rcases hr with rfl | rfl | rfl <;>
      simp only [Requests.executionRole, Requests.executionPolicy,
        Requests.executionPolicyAttachment] at hk <;> cases hk
  · split at hr
    · simp only [lgPlanned, List.mem_cons, List.not_mem_nil, or_false] at hr
      rcases hr with rfl
      simp only [Requests.logGroup] at hk
      cases hk
    · simp at hr

/-- The security-group request is always planned. -/
theorem sg_mem_planned (c : StackConfig) (tags : TagMap) :
    Requests.sg c tags (sgVpcIdArg c) ∈ plannedRequests c tags := by
  unfold plannedRequests
  simp [sgPlanned, List.mem_append]

/-- C4: new VPC resources are requested iff `createVPC` is set; with
`createVPC` unset the security group's VpcId argument is the configured
existing VPC id (non-empty by validation), the security-group request is
issued on success, and the builders set `createVPC` accordingly. -/
theorem C4_createVPC_branching (engine : Engine) (c : StackConfig)
    (h : validate (applyDefaults c) = .ok ()) :
    ((∃ r ∈ (NewAgentCoreStack engine c).2.1, r.kind = .vpc) ↔
      (applyDefaults c).vpcD.createVPC = true) ∧
    ((applyDefaults c).vpcD.createVPC = false →
      (applyDefaults c).vpcD.vpcId ≠ "" ∧
      ∀ r ∈ (NewAgentCoreStack engine c).2.1, r.kind = .securityGroup →
        r.vpcIdArg =
          some (.existing (applyDefaults c).vpcD.vpcId)) ∧
    ((NewAgentCoreStack engine c).1.isOk = true →
      ∃ r ∈ (NewAgentCoreStack engine c).2.1, r.kind = .securityGroup ∧
        r.vpcIdArg = some (sgVpcIdArg (applyDefaults c))) ∧
    (∀ (b : StackBuilder) (cidr : String) (az : Int) (vid : String)
       (subs : List String),
      (b.WithNewVPC cidr az).config.vpc =
        some { createVPC := true, vpcCidr := cidr, maxAZs := az,
               enableVPCEndpoints := true } ∧
      (b.WithExistingVPC vid subs).config.vpc =
        some { createVPC := false, vpcId := vid, subnetIds := subs }) := by
  have hvpc : (applyDefaults c).vpc = some ((applyDefaults c).vpcD) := rfl
  refine ⟨⟨?_, ?_⟩, ?_, ?_, ?_⟩
  · rintro ⟨r, hr, hk⟩
    by_contra hvne
    have hv : (applyDefaults c).vpcD.createVPC = false := by
      cases hcv : (applyDefaults c).vpcD.createVPC
      · rfl
      · exact absurd hcv hvne
    exact planned_no_vpc _ _ hv r (trace_mem_planned engine c h r hr) hk
  · intro hv
    have hshape : plannedOf c =
        Requests.vpc (applyDefaults c)
            (mapInsert (applyDefaults c).tags "ManagedBy" "agentkit-pulumi")
          :: (vpcPlanned (applyDefaults c)
                (mapInsert (applyDefaults c).tags "ManagedBy"
                  "agentkit-pulumi")).tail
            ++ (sgPlanned (applyDefaults c)
                  (mapInsert (applyDefaults c).tags "ManagedBy"
                    "agentkit-pulumi")
              ++ (iamPlanned (applyDefaults c)
                    (mapInsert (applyDefaults c).tags "ManagedBy"
                      "agentkit-pulumi")
                ++ (if (applyDefaults c).obsD.enableCloudWatchLogs then
                      lgPlanned (applyDefaults c)
                        (mapInsert (applyDefaults c).tags "ManagedBy"
                          "agentkit-pulumi")
                    else []))) := by
      unfold plannedOf plannedRequests
      rw [if_pos hv]
      simp [vpcPlanned, List.append_assoc]
    refine ⟨Requests.vpc (applyDefaults c)
        (mapInsert (applyDefaults c).tags "ManagedBy" "agentkit-pulumi"),
      ?_, rfl⟩
    rw [run_trace_eq engine c h, hshape]
    exact takeUntilFail_cons_mem engine _ _
  · intro hv
    have hid : (applyDefaults c).vpcD.vpcId ≠ "" :=
      validate_existing_vpcId (applyDefaults c) _ h hvpc hv
    refine ⟨hid, ?_⟩
    intro r hr hk
    rw [planned_sg_arg _ _ r (trace_mem_planned engine c h r hr) hk]
    unfold sgVpcIdArg
    rw [if_neg (by rw [hv]; exact Bool.false_ne_true), if_pos hid]
  · intro hok
    have hf := (run_isOk_iff engine c h).1 hok
    rw [run_trace_eq engine c h, takeUntilFail_eq_self engine _ hf]
    exact ⟨Requests.sg (applyDefaults c)
        (mapInsert (applyDefaults c).tags "ManagedBy" "agentkit-pulumi")
        (sgVpcIdArg (applyDefaults c)),
      sg_mem_planned _ _, rfl, rfl⟩
  · intro b cidr az vid subs
    exact ⟨rfl, rfl⟩

/-- Witness for C4: an existing-VPC configuration run to success. -/
theorem C4_createVPC_branching_witness :
    validate (applyDefaults cExisting) = .ok () ∧
    (applyDefaults cExisting).vpcD.createVPC = false ∧
    (applyDefaults cExisting).vpcD.vpcId ≠ "" ∧
    ∀ r ∈ (NewAgentCoreStack engineOk cExisting).2.1,
      r.kind = .securityGroup →
        r.vpcIdArg = some (.existing (applyDefaults cExisting).vpcD.vpcId) :=
  ⟨rfl, rfl,
    ((C4_createVPC_branching engineOk cExisting rfl).2.1 rfl).1,
    ((C4_createVPC_branching engineOk cExisting rfl).2.1 rfl).2⟩

/-- A valid configuration restricting Bedrock to two models. -/
def cBedrock : StackConfig :=
  { stackName := "demo", agents := [DefaultAgentConfig "a" "img"],
    iam := some { enableBedrockAccess := true,
                  bedrockModelIDs := ["model-a", "model-b"] } }

/-- Is `pat` a contiguous substring of `l`? -/
def containsSub (pat : List Char) : List Char → Bool
  | [] => pat.isEmpty
  | c :: cs => pat.isPrefixOf (c :: cs) || containsSub pat cs

/-- C5: with Bedrock access enabled, the generated policy's statement list
contains the Bedrock invoke statement whose `Resource` is the JSON array
of one foundation-model ARN per allow-listed model id when the list is
non-empty, and the single wildcard foundation-model ARN when it is empty;
with Bedrock access disabled no statement mentions `bedrock`. -/
theorem C5_bedrock_policy (c : StackConfig) :
    (c.iamD.enableBedrockAccess = true → c.iamD.bedrockModelIDs ≠ [] →
      bedrockStatement
          ("[" ++ commaSeparated (c.iamD.bedrockModelIDs.map bedrockArn)
            ++ "]")
        ∈ iamPolicyStatementList c) ∧
    (c.iamD.enableBedrockAccess = true → c.iamD.bedrockModelIDs = [] →
      bedrockStatement "\"arn:aws:bedrock:*:*:foundation-model/*\""
        ∈ iamPolicyStatementList c) ∧
    (c.iamD.enableBedrockAccess = false →
      ∀ st ∈ iamPolicyStatementList c,
        containsSub ("bedrock".toList) st.toList = false) := by
  refine ⟨?_, ?_, ?_⟩
  · intro he hne
    unfold iamPolicyStatementList
    dsimp only
    rw [if_pos he, bedrockResource_nonempty c.iamD hne]
    split <;> simp
  · intro he hemp
    unfold iamPolicyStatementList
    dsimp only
    rw [if_pos he, bedrockResource_empty c.iamD hemp]
    split <;> simp
  · intro hd st hst
    have hb : ¬ (c.iamD.enableBedrockAccess = true) := by
      rw [hd]; exact Bool.false_ne_true
    unfold iamPolicyStatementList at hst
    dsimp only at hst
    simp only [if_neg hb] at hst
    split at hst <;> simp at hst
    · rcases hst with rfl | rfl | rfl <;> decide
    · rcases hst with rfl | rfl <;> decide

/-- Witness for C5: a two-model allow-list yields the two-ARN array. -/
theorem C5_bedrock_policy_witness :
    cBedrock.iamD.enableBedrockAccess = true ∧
    cBedrock.iamD.bedrockModelIDs ≠ [] ∧
    bedrockStatement
        ("[" ++ commaSeparated (cBedrock.iamD.bedrockModelIDs.map bedrockArn)
          ++ "]")
      ∈ iamPolicyStatementList cBedrock :=
  ⟨rfl, by decide, (C5_bedrock_policy cBedrock).1 rfl (by decide)⟩

/-- C6: every fluent builder call is a pure update of the held
configuration value, returning the updated builder and nothing else; the
terminal `AgentBuilder.Build` and `StackBuilder.Config` return exactly the
accumulated configuration, without validating it (an invalid accumulated
configuration is returned as is). -/
theorem C6_builders_pure :
    (∀ (b : StackBuilder) (d : String), b.WithDescription d =
      { config := { b.config with description := d } }) ∧
    (∀ (b : StackBuilder) (a : AgentConfig), b.WithAgent a =
      { config := { b.config with agents := b.config.agents ++ [a] } }) ∧
    (∀ (b : StackBuilder) (as : List AgentConfig), b.WithAgents as =
      { config := { b.config with agents := b.config.agents ++ as } }) ∧
    (∀ (b : StackBuilder) (n i : String), b.WithSimpleAgent n i =
      { config := { b.config with
          agents := b.config.agents ++ [DefaultAgentConfig n i] } }) ∧
    (∀ (b : StackBuilder) (n i : String), b.WithDefaultAgent n i =
      { config := { b.config with
          agents := b.config.agents
            ++ [{ DefaultAgentConfig n i with isDefault := true }] } }) ∧
    (∀ (b : StackBuilder) (v : VPCConfig), b.WithVPC v =
      { config := { b.config with vpc := some v } }) ∧
    (∀ (b : StackBuilder) (vid : String) (subs : List String),
      b.WithExistingVPC vid subs =
      { config := { b.config with
          vpc := some { vpcId := vid, subnetIds := subs } } }) ∧
    (∀ (b : StackBuilder) (cidr : String) (az : Int), b.WithNewVPC cidr az =
      { config := { b.config with
          vpc := some { createVPC := true, vpcCidr := cidr, maxAZs := az,
                        enableVPCEndpoints := true } } }) ∧
    (∀ (b : StackBuilder) (sc : SecretsConfig), b.WithSecrets sc =
      { config := { b.config with secrets := some sc } }) ∧
    (∀ (b : StackBuilder) (vals : TagMap), b.WithSecretValues vals =
      { config := { b.config with
          secrets := some { createSecrets := true, secretValues := vals } } }) ∧
    (∀ (b : StackBuilder) (o : ObservabilityConfig), b.WithObservability o =
      { config := { b.config with observability := some o } }) ∧
    (∀ (b : StackBuilder) (p k : String), b.WithOpik p k =
      { config := { b.config with
          observability := some
            { provider := "opik", project := p, apiKeySecretARN := k,
              enableCloudWatchLogs := true, logRetentionDays := 30 } } }) ∧
    (∀ (b : StackBuilder) (p k : String), b.WithLangfuse p k =
      { config := { b.config with
          observability := some
            { provider := "langfuse", project := p, apiKeySecretARN := k,
              enableCloudWatchLogs := true, logRetentionDays := 30 } } }) ∧
    (∀ (b : StackBuilder) (d : Int), b.WithCloudWatchOnly d =
      { config := { b.config with
          observability := some
            { provider := "cloudwatch", enableCloudWatchLogs := true,
              logRetentionDays := d } } }) ∧
    (∀ (b : StackBuilder) (i : IAMConfig), b.WithIAM i =
      { config := { b.config with iam := some i } }) ∧
    (∀ (b : StackBuilder) (arn : String), b.WithExistingRole arn =
      { config := { b.config with iam := some { roleARN := arn } } }) ∧
    (∀ (b : StackBuilder) (ids : List String), b.WithBedrockModels ids =
      { config := { b.config with
          iam := some
            { b.config.iam.getD DefaultIAMConfig with
              bedrockModelIDs := ids } } }) ∧
    (∀ (b : StackBuilder) (ts : TagMap), b.WithTags ts =
      { config := { b.config with
          tags := ts.foldl (fun m p => mapInsert m p.1 p.2) b.config.tags } }) ∧
    (∀ (b : StackBuilder) (k v : String), b.WithTag k v =
      { config := { b.config with
          tags := mapInsert b.config.tags k v } }) ∧
    (∀ (b : StackBuilder) (p : String), b.WithRemovalPolicy p =
      { config := { b.config with removalPolicy := p } }) ∧
    (∀ (b : StackBuilder), b.RetainOnDelete =
      { config := { b.config with removalPolicy := "retain" } }) ∧
    (∀ (b : StackBuilder), b.DestroyOnDelete =
      { config := { b.config with removalPolicy := "destroy" } }) ∧
    (∀ (b : AgentBuilder) (d : String), b.WithDescription d =
      { config := { b.config with description := d } }) ∧
    (∀ (b : AgentBuilder) (m : Int), b.WithMemory m =
      { config := { b.config with memoryMB := m } }) ∧
    (∀ (b : AgentBuilder) (t : Int), b.WithTimeout t =
      { config := { b.config with timeoutSeconds := t } }) ∧
    (∀ (b : AgentBuilder) (env : TagMap), b.WithEnvironment env =
      { config := { b.config with
          environment :=
            env.foldl (fun m p => mapInsert m p.1 p.2) b.config.environment } }) ∧
    (∀ (b : AgentBuilder) (k v : String), b.WithEnvVar k v =
      { config := { b.config with
          environment := mapInsert b.config.environment k v } }) ∧
    (∀ (b : AgentBuilder) (arns : List String), b.WithSecrets arns =
      { config := { b.config with
          secretsARNs := b.config.secretsARNs ++ arns } }) ∧
    (∀ (b : AgentBuilder), b.AsDefault =
      { config := { b.config with isDefault := true } }) ∧
    (∀ (b : AgentBuilder), b.Build = b.config) ∧
    (∀ (b : StackBuilder), b.Config = b.config) ∧
    (StackBuilder.Config (NewStackBuilder "") =
      { stackName := "", agents := [], tags := [] } ∧
     validate (applyDefaults (StackBuilder.Config (NewStackBuilder ""))) =
       .error "stack name is required") := by
  repeat' apply And.intro
  all_goals first | rfl | (intros; rfl)

/-- C7: `MustBuild` panics exactly when `Build` returns an error and
otherwise returns the identical stack, and `MustNewStackFromFile` panics
(with the wrapping message) exactly when `NewStackFromFile` returns an
error; the underlying operations themselves return `Except` results. -/
theorem C7_must_wrappers (b : StackBuilder) (engine : Engine)
    (loader : String → Except String StackConfig) (path : String) :
    (∀ s, (b.Build engine).1 = .ok s → b.MustBuild engine = .returned s) ∧
    (∀ e, (b.Build engine).1 = .error e → b.MustBuild engine = .panicked e) ∧
    ((∃ msg, b.MustBuild engine = .panicked msg) ↔
      ∃ e, (b.Build engine).1 = .error e) ∧
    (∀ s, (NewStackFromFile loader engine path).1 = .ok s →
      MustNewStackFromFile loader engine path = .returned s) ∧
    (∀ e, (NewStackFromFile loader engine path).1 = .error e →
      MustNewStackFromFile loader engine path =
        .panicked ("failed to create stack from " ++ path ++ ": " ++ e)) ∧
    ((∃ msg, MustNewStackFromFile loader engine path = .panicked msg) ↔
      ∃ e, (NewStackFromFile loader engine path).1 = .error e) := by
  refine ⟨?_, ?_, ?_, ?_, ?_, ?_⟩
  · intro s hs
    unfold StackBuilder.MustBuild
    rw [hs]
  · intro e he
    unfold StackBuilder.MustBuild
    rw [he]
  · constructor
    · rintro ⟨msg, hm⟩
      cases hb : (b.Build engine).1 with
      | ok s =>
        rw [show b.MustBuild engine = .returned s from by
          unfold StackBuilder.MustBuild; rw [hb]] at hm
        cases hm
      | error e => exact ⟨e, rfl⟩
    · rintro ⟨e, he⟩
      exact ⟨_, by unfold StackBuilder.MustBuild; rw [he]⟩
  · intro s hs
    unfold MustNewStackFromFile
    rw [hs]
  · intro e he
    unfold MustNewStackFromFile
    rw [he]
  · constructor
    · rintro ⟨msg, hm⟩
      cases hb : (NewStackFromFile loader engine path).1 with
      | ok s =>
        rw [show MustNewStackFromFile loader engine path = .returned s from by
          unfold MustNewStackFromFile; rw [hb]] at hm
        cases hm
      | error e => exact ⟨e, rfl⟩
    · rintro ⟨e, he⟩
      exact ⟨_, by unfold MustNewStackFromFile; rw [he]⟩

/-- Witness for C7: a failing build panics with the build error, a failing
load panics with the wrapped load error. -/
theorem C7_must_wrappers_witness :
    ((NewStackBuilder "").Build engineOk).1 =
      .error ("invalid stack configuration: " ++ "stack name is required") ∧
    (NewStackBuilder "").MustBuild engineOk =
      .panicked ("invalid stack configuration: " ++ "stack name is required") ∧
    (NewStackFromFile (fun _ => .error "no such file") engineOk
        "agents.yaml").1 = .error "no such file" ∧
    MustNewStackFromFile (fun _ => .error "no such file") engineOk
        "agents.yaml" =
      .panicked ("failed to create stack from " ++ "agents.yaml" ++ ": "
        ++ "no such file") :=
  ⟨rfl,
   (C7_must_wrappers (NewStackBuilder "") engineOk
      (fun _ => .error "no such file") "agents.yaml").2.1 _ rfl,
   rfl,
   (C7_must_wrappers (NewStackBuilder "") engineOk
      (fun _ => .error "no such file") "agents.yaml").2.2.2.2.1 _ rfl⟩

/-- C8: with CloudWatch logging enabled, every issued log-group request
carries a retention of 30 days when the configured `LogRetentionDays` is
zero and the configured value otherwise, and on success a log-group
request is indeed issued — a retention of 0 (never expire) cannot be
requested through this interface. -/
theorem C8_log_retention_default (engine : Engine) (c : StackConfig)
    (h : validate (applyDefaults c) = .ok ())
    (hl : (applyDefaults c).obsD.enableCloudWatchLogs = true) :
    (∀ r ∈ (NewAgentCoreStack engine c).2.1, r.kind = .logGroup →
      r.retentionInDays =
        some (if (applyDefaults c).obsD.logRetentionDays = 0 then 30
              else (applyDefaults c).obsD.logRetentionDays)) ∧
    ((NewAgentCoreStack engine c).1.isOk = true →
      ∃ r ∈ (NewAgentCoreStack engine c).2.1, r.kind = .logGroup) := by
  constructor
  · intro r hr hk
    rw [planned_logGroup_retention _ _ r (trace_mem_planned engine c h r hr) hk]
    rfl
  · intro hok
    have hf := (run_isOk_iff engine c h).1 hok
    rw [run_trace_eq engine c h, takeUntilFail_eq_self engine _ hf]
    refine ⟨Requests.logGroup (applyDefaults c)
        (mapInsert (applyDefaults c).tags "ManagedBy" "agentkit-pulumi")
        (lgRetention (applyDefaults c)), ?_, rfl⟩
    unfold plannedOf plannedRequests
    rw [if_pos hl]
    simp [lgPlanned, List.mem_append]

/-- Witness for C8: an explicit retention of 0 becomes 30. -/
theorem C8_log_retention_default_witness :
    (validate (applyDefaults cRetentionZero) = .ok () ∧
     (applyDefaults cRetentionZero).obsD.enableCloudWatchLogs = true) ∧
    ((∀ r ∈ (NewAgentCoreStack engineOk cRetentionZero).2.1,
        r.kind = .logGroup →
        r.retentionInDays =
          some (if (applyDefaults cRetentionZero).obsD.logRetentionDays = 0
                then 30
                else (applyDefaults cRetentionZero).obsD.logRetentionDays)) ∧
     ((NewAgentCoreStack engineOk cRetentionZero).1.isOk = true →
       ∃ r ∈ (NewAgentCoreStack engineOk cRetentionZero).2.1,
         r.kind = .logGroup)) :=
  ⟨⟨rfl, rfl⟩, C8_log_retention_default engineOk cRetentionZero rfl rfl⟩

/-- C9 (amended): every issued request that carries a tag map carries
`ManagedBy = "agentkit-pulumi"` — overriding any user-supplied value for
that key — and passes every user tag other than `Name` and `ManagedBy`
through unchanged (`Name` is set per-resource to a stack-derived name);
on success at least one tagged request is issued. -/
theorem C9_managed_by_tag (engine : Engine) (c : StackConfig)
    (h : validate (applyDefaults c) = .ok ()) :
    (∀ r ∈ (NewAgentCoreStack engine c).2.1, ∀ m, r.tags = some m →
      m.lookup "ManagedBy" = some "agentkit-pulumi" ∧
      ∀ k, k ≠ "Name" → k ≠ "ManagedBy" → m.lookup k = c.tags.lookup k) ∧
    ((NewAgentCoreStack engine c).1.isOk = true →
      ∃ r ∈ (NewAgentCoreStack engine c).2.1, ∃ m, r.tags = some m) := by
  constructor
  · intro r hr m hm
    obtain ⟨nm, rfl⟩ :=
      planned_tags _ _ r (trace_mem_planned engine c h r hr) m hm
    constructor
    · rw [mergeTags_lookup_ne _ _ _ (by decide)]
      exact lookup_mapInsert _ _ _
    · intro k hkn hkm
      rw [mergeTags_lookup_ne _ _ _ hkn, lookup_mapInsert_ne _ _ _ _ hkm]
      rfl
  · intro hok
    have hf := (run_isOk_iff engine c h).1 hok
    rw [run_trace_eq engine c h, takeUntilFail_eq_self engine _ hf]
    refine ⟨Requests.executionRole (applyDefaults c)
        (mapInsert (applyDefaults c).tags "ManagedBy" "agentkit-pulumi"),
      ?_, _, rfl⟩
    unfold plannedOf plannedRequests
    simp [iamPlanned, List.mem_append]

/-- Counterexample for C9 as stated: a user-supplied `Name` tag is not
passed through — some issued request carries a tag map whose `Name`
differs from the user's value. -/
theorem C9_counterexample :
    ∃ r ∈ (NewAgentCoreStack engineOk cNameTag).2.1,
      r.tags.isSome ∧ (r.tags.getD []).lookup "Name" ≠ some "custom" := by
  decide

/-- Witness for C9 (amended): a run over a config carrying user tags. -/
theorem C9_managed_by_tag_witness :
    validate (applyDefaults cExisting) = .ok () ∧
    ∀ r ∈ (NewAgentCoreStack engineOk cExisting).2.1, ∀ m, r.tags = some m →
      m.lookup "ManagedBy" = some "agentkit-pulumi" ∧
      ∀ k, k ≠ "Name" → k ≠ "ManagedBy" →
        m.lookup k = cExisting.tags.lookup k :=
  ⟨rfl, (C9_managed_by_tag engineOk cExisting rfl).1⟩

/-- C10: `mergeTags` yields a map binding `Name` to the given name
(replacing any `Name` binding of the base) and binding every other key
exactly as the base does; the base itself, a pure value here, is
unchanged. -/
theorem C10_mergeTags_spec (base : TagMap) (name : String) :
    (mergeTags base name).lookup "Name" = some name ∧
    ∀ k, k ≠ "Name" → (mergeTags base name).lookup k = base.lookup k :=
  ⟨mergeTags_lookup_name base name,
   fun k hk => mergeTags_lookup_ne base name k hk⟩

/-- Witness for C10: a concrete base with an existing `Name` binding. -/
theorem C10_mergeTags_spec_witness :
    (mergeTags [("Env", "prod"), ("Name", "old")] "demo-vpc").lookup "Name" =
      some "demo-vpc" ∧
    ("Env" : String) ≠ "Name" ∧
    (mergeTags [("Env", "prod"), ("Name", "old")] "demo-vpc").lookup "Env" =
      some "prod" :=
  ⟨(C10_mergeTags_spec [("Env", "prod"), ("Name", "old")] "demo-vpc").1,
   by decide,
   by
    rw [(C10_mergeTags_spec [("Env", "prod"), ("Name", "old")] "demo-vpc").2
      "Env" (by decide)]
    rfl⟩

end AgentKitPulumi
